import Mathlib

/-!
Verification development for the botwars two-agent combat engine.

Embedding conventions.

Scalars: the source manipulates JS numbers; the embedding uses the exact
rationals. Counters (ticks, cooldowns, status durations, lifetimes, ids)
are embedded as naturals; the source only ever decrements them when
positive and compares them against nonnegative bounds, so truncated
subtraction agrees with the source on every reachable value and on the
guards used.

Square roots: Math.sqrt appears in the source only (a) inside comparisons
of a distance or a normalized dot product against a constant, and (b) in
a few position or speed updates. Comparisons are embedded in the exact
equivalent squared form (for r greater or equal 0 and d the squared
distance, sqrt d < r iff d < r * r, and for c > 0, s / sqrt l ge c iff
s ge 0 and s * s ge c * c * l); every such definition notes the source
comparison it replaces. Where the value itself flows into the state the
embedding uses ratSqrt, which is exact whenever the argument has a
rational square root; all concrete evaluations in this file only reach
ratSqrt at such arguments.

Constants: the file src/utils/constants.ts is not part of the provided
sources. Its values are taken from the repository documentation (the
CLAUDE.md balance tables and the bot prompt in the sources); constants
whose value neither states are modelled from the spec with an explicitly
noted choice, and no theorem below depends on those choices beyond the
properties the spec gives them (positivity).
-/

namespace Botwars

/-- Two dimensional vector over the rationals, mirroring Vec2 of
src/utils/math.ts. -/
structure Vec2 where
  x : ℚ
  y : ℚ
deriving DecidableEq, Repr

namespace Vec2

/-- vec2 of src/utils/math.ts. -/
def mk2 (x y : ℚ) : Vec2 := ⟨x, y⟩

/-- add of src/utils/math.ts. -/
def add (a b : Vec2) : Vec2 := ⟨a.x + b.x, a.y + b.y⟩

/-- sub of src/utils/math.ts. -/
def sub (a b : Vec2) : Vec2 := ⟨a.x - b.x, a.y - b.y⟩

/-- scale of src/utils/math.ts. -/
def scale (v : Vec2) (s : ℚ) : Vec2 := ⟨v.x * s, v.y * s⟩

/-- dot of src/utils/math.ts. -/
def dot (a b : Vec2) : ℚ := a.x * b.x + a.y * b.y

/-- Squared length: length v in the source is sqrt of this. -/
def norm2 (v : Vec2) : ℚ := v.x * v.x + v.y * v.y

end Vec2

/-- Squared distance: distance a b in the source is sqrt of this. -/
def dist2 (a b : Vec2) : ℚ := Vec2.norm2 (Vec2.sub a b)

/-- Rational square root: exact whenever the argument is the square of a
rational, a floor approximation otherwise (the embedding only evaluates
it at exact arguments, see the module header). Math.sqrt of a negative
gives NaN; the source never feeds it one, the guard returns 0. -/
def ratSqrt (q : ℚ) : ℚ :=
  if q ≤ 0 then 0 else (Nat.sqrt (q.num.toNat * q.den) : ℚ) / (q.den : ℚ)

/-- normalize of src/utils/math.ts: the zero vector maps to itself. -/
def normalize (v : Vec2) : Vec2 :=
  let l := ratSqrt (Vec2.norm2 v)
  if l = 0 then ⟨0, 0⟩ else ⟨v.x / l, v.y / l⟩

/-- Source comparison distance a b < r (r ge 0), in squared form. -/
def distLtB (a b : Vec2) (r : ℚ) : Bool := decide (dist2 a b < r * r)

/-- Source comparison distance a b > r (r ge 0), in squared form. -/
def distGtB (a b : Vec2) (r : ℚ) : Bool := decide (r * r < dist2 a b)

/-- Source comparison distance a b le r (r ge 0), in squared form. -/
def distLeB (a b : Vec2) (r : ℚ) : Bool := decide (dist2 a b ≤ r * r)

/-- Game balance constants of src/utils/constants.ts, values from the
repository documentation (CLAUDE.md and the bot prompt). -/
def BOT_HP : ℚ := 100
def BOT_ENERGY : ℚ := 100
def ENERGY_REGEN : ℚ := 1
def MELEE_DAMAGE : ℚ := 9
def MELEE_ENERGY : ℚ := 12
def MELEE_COOLDOWN : ℕ := 10
def MELEE_RANGE : ℚ := 2
def RANGED_DAMAGE : ℚ := 8
def RANGED_ENERGY : ℚ := 14
def RANGED_COOLDOWN : ℕ := 15
def SPECIAL_DAMAGE : ℚ := 12
def SPECIAL_ENERGY : ℚ := 40
def SPECIAL_COOLDOWN : ℕ := 50
def SPECIAL_RANGE : ℚ := 8
def DEFEND_ENERGY_PER_TICK : ℚ := 3
def DEFEND_REDUCTION : ℚ := 35 / 100
def BURN_DAMAGE : ℚ := 1
def BURN_DURATION : ℕ := 20
def DASH_ENERGY : ℚ := 15
def DASH_COOLDOWN : ℕ := 12
def DASH_DISTANCE : ℚ := 5
def HEAL_AMOUNT : ℚ := 15
def HEAL_ENERGY : ℚ := 30
def HEAL_COOLDOWN : ℕ := 40
def TRAP_ENERGY : ℚ := 20
def TRAP_COOLDOWN : ℕ := 25
def TRAP_MAX_PER_BOT : ℕ := 2
def TRAP_DAMAGE : ℚ := 10
def TRAP_SLOW_DURATION : ℕ := 30
def MELEE_COMMIT_TICKS : ℕ := 3
def SPECIAL_COMMIT_TICKS : ℕ := 4
def OOC_REGEN_DELAY : ℕ := 40
def OOC_REGEN_RATE : ℚ := 2
def MAX_TICKS : ℕ := 2400
def ARENA_SIZE : ℚ := 40
def ARENA_HALF : ℚ := 20
def BOT_RADIUS : ℚ := 1
def BOT_SPEED : ℚ := 3 / 10
def COMMIT_SPEED_MULT : ℚ := 15 / 100
def MOMENTUM_BUILDUP : ℚ := 12 / 100
def MOMENTUM_DECAY : ℚ := 1 / 2
def MOMENTUM_MAX_BONUS : ℚ := 1 / 2

/-- Modelled from the spec: constants.ts is absent from the sources and
the docs do not give the projectile speed; the spec only requires a fixed
speed along the facing direction. -/
def PROJECTILE_SPEED : ℚ := 8 / 10

/-- Modelled from the spec: maximum walkable slope, value unspecified. -/
def TERRAIN_SLOPE_MAX : ℚ := 8 / 10

/-- Modelled from the spec: pickup spawning happens on a fixed tick
interval whose value the docs do not give; any positive period works for
every statement below, and the shortest one keeps the concrete runs
short. -/
def PICKUP_INTERVAL : ℕ := 1

/-- Modelled from the spec: concurrent active pickup cap, value
unspecified; any positive cap. -/
def MAX_PICKUPS : ℕ := 3

/-- Modelled from the spec: pickup collection radius, value
unspecified. -/
def PICKUP_RADIUS : ℚ := 3 / 2

/-- Modelled from the spec: health restored by a health pickup, value
unspecified; the code clamps it to the hp cap. -/
def HEALTH_PICKUP_AMOUNT : ℚ := 25

/-- Modelled from the spec: energy restored by an energy pickup, value
unspecified; the code clamps it to the energy cap. -/
def ENERGY_PICKUP_AMOUNT : ℚ := 30

/-- Modelled from the spec: trap trigger radius, value unspecified. -/
def TRAP_RADIUS : ℚ := 3 / 2

/-- Modelled from the spec: trap expiry age in ticks, value
unspecified. -/
def TRAP_LIFETIME : ℕ := 600

/-- Modelled from the spec: the fallback obstacle layout of constants.ts
used when no arena config is installed; layout unspecified and no claim
below depends on it. -/
def DEFAULT_OBSTACLES : List (Vec2 × ℚ) := []

/-- Cosine of half the 160 degree field of view. Math.cos of 80 degrees
is transcendental; the embedding fixes the rational value the float
computation produces. Only its squared comparisons are ever used. -/
def HALF_FOV_COS : ℚ := 17364817766693 / 100000000000000

/-- JS Math.round: floor of the argument plus one half. -/
def roundJs (q : ℚ) : ℚ := (⌊q + 1 / 2⌋ : ℤ)

/-- Obstacle as consumed by the engine: position and radius (the other
ObstacleData fields of src/engine/types.ts are render only and never read
by the embedded code). -/
structure Obstacle where
  position : Vec2
  radius : ℚ
deriving DecidableEq, Repr

/-- TerrainData of src/engine/types.ts, the heightmap row major. -/
structure TerrainData where
  heightmap : List ℚ
  resolution : ℕ
  arenaSize : ℚ
deriving DecidableEq, Repr

/-- ArenaConfig of src/engine/types.ts restricted to the fields the
engine reads (biome and bounds are render only). -/
structure ArenaConfig where
  obstacles : List Obstacle
  terrain : TerrainData
  spawnPoints : Vec2 × Vec2
deriving DecidableEq, Repr

/-- lineSegmentIntersectsCircle of src/utils/math.ts. The parameter t is
rational; the two distance comparisons against the radius are embedded in
squared form. -/
def lineSegmentIntersectsCircle (p1 p2 center : Vec2) (radius : ℚ) : Bool :=
  let d := Vec2.sub p2 p1
  let f := Vec2.sub p1 center
  let lenSq := Vec2.dot d d
  if lenSq = 0 then decide (Vec2.norm2 f ≤ radius * radius)
  else
    let t := max 0 (min 1 (-(Vec2.dot f d) / lenSq))
    let closest : Vec2 := ⟨p1.x + t * d.x, p1.y + t * d.y⟩
    decide (dist2 closest center ≤ radius * radius)

/-- hasLineOfSight of src/utils/math.ts. -/
def hasLineOfSight (from_ to_ : Vec2) (obstacles : List Obstacle) : Bool :=
  !(obstacles.any fun o => lineSegmentIntersectsCircle from_ to_ o.position o.radius)

/-- isInFieldOfView of src/utils/math.ts with the fixed BOT_FOV. The
source compares dot facing (dir normalized) against halfFovCos; with
halfFovCos > 0 and positive squared length l this is equivalent to the
squared form s ge 0 and c * c * l le s * s used here. Coincident
positions see each other, as in the source. -/
def isInFieldOfView (facing from_ to_ : Vec2) : Bool :=
  let d := Vec2.sub to_ from_
  let l2 := Vec2.norm2 d
  if l2 = 0 then true
  else
    let s := Vec2.dot facing d
    decide (0 ≤ s ∧ HALF_FOV_COS * HALF_FOV_COS * l2 ≤ s * s)

/-- The melee facing check of processMelee (src Combat, lines 315-326):
the source computes dot facing (normalize (enemy minus bot)) and misses
when it is below 0.3. With zero separation normalize yields the zero
vector and the dot is 0 < 0.3; otherwise s / sqrt l2 < 0.3 iff s < 0 or
100 * s * s < 9 * l2. -/
def meleeFacingMiss (facing botPos enemyPos : Vec2) : Bool :=
  let d := Vec2.sub enemyPos botPos
  let l2 := Vec2.norm2 d
  if l2 = 0 then true
  else
    let s := Vec2.dot facing d
    decide (s < 0 ∨ 100 * (s * s) < 9 * l2)

/-- Closed action set of BotAction in src/engine/types.ts. -/
inductive ActionKind where
  | melee | ranged | special | defend | dash | heal | trap
deriving DecidableEq, Repr

/-- BotAction of src/engine/types.ts; null action is none. -/
structure BotAction where
  move : Vec2
  aim : Vec2
  action : Option ActionKind
deriving DecidableEq, Repr

/-- The neutral default action the sandbox boundary substitutes on any
fault. -/
def neutralAction : BotAction := ⟨⟨0, 0⟩, ⟨0, 0⟩, none⟩

/-- Per ability cooldown counters of BotData. -/
structure Cooldowns where
  melee : ℕ
  ranged : ℕ
  special : ℕ
  dash : ℕ
  heal : ℕ
  trap : ℕ
deriving DecidableEq, Repr

/-- Status flags of BotData. -/
structure BotStatus where
  burning : ℕ
  slowed : ℕ
  shielded : Bool
  attackCommit : ℕ
deriving DecidableEq, Repr

/-- The actionsUsed record of BotData: the source stores an open string
record but only ever touches the seven action keys; embedded as a fixed
field struct. -/
structure UsageCounts where
  melee : ℕ := 0
  ranged : ℕ := 0
  special : ℕ := 0
  defend : ℕ := 0
  dash : ℕ := 0
  heal : ℕ := 0
  trap : ℕ := 0
deriving DecidableEq, Repr

/-- The source increment actionsUsed[k] = (actionsUsed[k] or 0) + 1. -/
def UsageCounts.bump (u : UsageCounts) : ActionKind → UsageCounts
  | .melee => { u with melee := u.melee + 1 }
  | .ranged => { u with ranged := u.ranged + 1 }
  | .special => { u with special := u.special + 1 }
  | .defend => { u with defend := u.defend + 1 }
  | .dash => { u with dash := u.dash + 1 }
  | .heal => { u with heal := u.heal + 1 }
  | .trap => { u with trap := u.trap + 1 }

/-- BotData of src/engine/types.ts restricted to fields the engine
mutates or reads (name is only interpolated into event text, which the
embedding omits; lastAction is never written by the engine). -/
structure Bot where
  id : ℕ
  hp : ℚ
  energy : ℚ
  position : Vec2
  facing : Vec2
  velocity : Vec2
  cooldowns : Cooldowns
  status : BotStatus
  lastCombatTick : ℕ
  momentum : ℚ
  isDefending : Bool
  damageDealt : ℚ
  damageTaken : ℚ
  actionsUsed : UsageCounts
deriving DecidableEq, Repr

/-- Projectile of src/engine/types.ts. -/
structure Projectile where
  id : ℕ
  ownerId : ℕ
  position : Vec2
  velocity : Vec2
  damage : ℚ
  lifetime : ℕ
deriving DecidableEq, Repr

/-- Pickup kind. -/
inductive PickupType where
  | health | energy
deriving DecidableEq, Repr

/-- Pickup of src/engine/types.ts. -/
structure Pickup where
  id : ℕ
  position : Vec2
  ptype : PickupType
  active : Bool
deriving DecidableEq, Repr

/-- Trap of src/engine/types.ts. -/
structure Trap where
  id : ℕ
  ownerId : ℕ
  position : Vec2
  lifetime : ℕ
  active : Bool
deriving DecidableEq, Repr

/-- Event tags of GameEvent in src/engine/types.ts. -/
inductive EventType where
  | meleeHit | rangedFire | rangedHit | specialUse | specialHit
  | defendStart | defendEnd | pickup | burnTick | ko | miss
  | dashUse | healUse | trapPlace | trapTrigger
  | lostSight | gainedSight
deriving DecidableEq, Repr

/-- GameEvent of src/engine/types.ts; the free text field is presentation
only and omitted from the embedding. -/
structure GameEvent where
  etype : EventType
  attacker : Option ℕ := none
  target : Option ℕ := none
  damage : Option ℚ := none
  position : Option Vec2 := none
deriving DecidableEq, Repr

/-- GameState of src/engine/GameState.ts. The source keeps the two bots
in an array indexed by id; the embedding stores them as two fields with
ids 0 and 1 (init always creates exactly these). The enemyVisible and
lastKnownEnemyPos pairs are split the same way. -/
structure GState where
  bot0 : Bot
  bot1 : Bot
  projectiles : List Projectile
  pickups : List Pickup
  traps : List Trap
  tick : ℕ
  events : List GameEvent
  gameOver : Bool
  winner : Option ℕ
  arenaConfig : Option ArenaConfig
  lastKnown0 : Vec2
  lastKnown1 : Vec2
  visible0 : Bool
  visible1 : Bool
  nextProjectileId : ℕ
  nextPickupId : ℕ
  nextTrapId : ℕ
deriving DecidableEq, Repr

namespace GState

/-- Read the bot with the given index (ids are 0 and 1). -/
def getBot (st : GState) (i : ℕ) : Bot :=
  if i = 0 then st.bot0 else st.bot1

/-- Write the bot with the given index back. -/
def setBot (st : GState) (i : ℕ) (b : Bot) : GState :=
  if i = 0 then { st with bot0 := b } else { st with bot1 := b }

/-- Append an event, as the source events.push. -/
def pushEvent (st : GState) (e : GameEvent) : GState :=
  { st with events := st.events ++ [e] }

/-- The obstacle list the state consults: the installed arena config, or
the DEFAULT_OBSTACLES fallback of constants.ts. -/
def obstaclesOf (cfg : Option ArenaConfig) : List Obstacle :=
  match cfg with
  | some c => c.obstacles
  | none => DEFAULT_OBSTACLES.map fun o => ⟨o.1, o.2⟩

end GState

/-- addProjectile of src/engine/GameState.ts. -/
def GState.addProjectile (st : GState) (ownerId : ℕ) (pos vel : Vec2)
    (damage : ℚ) : GState :=
  { st with
    projectiles := st.projectiles ++
      [⟨st.nextProjectileId, ownerId, pos, vel, damage, 60⟩],
    nextProjectileId := st.nextProjectileId + 1 }

/-- addTrap of src/engine/GameState.ts. -/
def GState.addTrap (st : GState) (ownerId : ℕ) (pos : Vec2) : GState :=
  { st with
    traps := st.traps ++ [⟨st.nextTrapId, ownerId, pos, 0, true⟩],
    nextTrapId := st.nextTrapId + 1 }

/-- processMelee of src Combat (lines 293-345). The attacker has index i,
the enemy is the single other bot that the filter on ids selects. Gate
failure returns the state untouched; on a swing the cost, cooldown,
commit and momentum reset land before the range and facing checks, each
of which pushes a miss event. -/
def processMelee (i : ℕ) (st : GState) : GState :=
  let bot := st.getBot i
  let enemy := st.getBot (1 - i)
  if bot.cooldowns.melee > 0 ∨ bot.energy < MELEE_ENERGY then st
  else
    let bot := { bot with
      energy := bot.energy - MELEE_ENERGY,
      cooldowns := { bot.cooldowns with melee := MELEE_COOLDOWN },
      actionsUsed := bot.actionsUsed.bump .melee,
      status := { bot.status with attackCommit := MELEE_COMMIT_TICKS },
      momentum := 0 }
    if distGtB bot.position enemy.position MELEE_RANGE then
      (st.setBot i bot).pushEvent
        { etype := .miss, attacker := some bot.id, position := some bot.position }
    else if meleeFacingMiss bot.facing bot.position enemy.position then
      (st.setBot i bot).pushEvent
        { etype := .miss, attacker := some bot.id, position := some bot.position }
    else
      let dmg := if enemy.isDefending then roundJs (MELEE_DAMAGE * DEFEND_REDUCTION)
                 else MELEE_DAMAGE
      let enemy := { enemy with
        hp := enemy.hp - dmg,
        damageTaken := enemy.damageTaken + dmg,
        lastCombatTick := st.tick }
      let bot := { bot with
        damageDealt := bot.damageDealt + dmg,
        lastCombatTick := st.tick }
      (((st.setBot i bot).setBot (1 - i) enemy)).pushEvent
        { etype := .meleeHit, attacker := some bot.id, target := some enemy.id,
          damage := some dmg, position := some enemy.position }

/-- processRanged of src Combat (lines 347-367). -/
def processRanged (i : ℕ) (st : GState) : GState :=
  let bot := st.getBot i
  if bot.cooldowns.ranged > 0 ∨ bot.energy < RANGED_ENERGY then st
  else
    let bot := { bot with
      energy := bot.energy - RANGED_ENERGY,
      cooldowns := { bot.cooldowns with ranged := RANGED_COOLDOWN },
      actionsUsed := bot.actionsUsed.bump .ranged }
    let vel : Vec2 := ⟨bot.facing.x * PROJECTILE_SPEED, bot.facing.y * PROJECTILE_SPEED⟩
    (((st.setBot i bot).addProjectile bot.id bot.position vel RANGED_DAMAGE)).pushEvent
      { etype := .rangedFire, attacker := some bot.id, position := some bot.position }

/-- processSpecial of src Combat (lines 369-409). Commit and momentum
reset happen on every swing; a special use event is always pushed, and
only the in range case deals damage and applies burning. There is no
facing check and no miss event in this handler. -/
def processSpecial (i : ℕ) (st : GState) : GState :=
  let bot := st.getBot i
  let enemy := st.getBot (1 - i)
  if bot.cooldowns.special > 0 ∨ bot.energy < SPECIAL_ENERGY then st
  else
    let bot := { bot with
      energy := bot.energy - SPECIAL_ENERGY,
      cooldowns := { bot.cooldowns with special := SPECIAL_COOLDOWN },
      actionsUsed := bot.actionsUsed.bump .special,
      status := { bot.status with attackCommit := SPECIAL_COMMIT_TICKS },
      momentum := 0 }
    let st := (st.setBot i bot).pushEvent
      { etype := .specialUse, attacker := some bot.id, position := some bot.position }
    if distLeB bot.position enemy.position SPECIAL_RANGE then
      let dmg := if enemy.isDefending then roundJs (SPECIAL_DAMAGE * DEFEND_REDUCTION)
                 else SPECIAL_DAMAGE
      let enemy := { enemy with
        hp := enemy.hp - dmg,
        status := { enemy.status with burning := BURN_DURATION },
        damageTaken := enemy.damageTaken + dmg,
        lastCombatTick := st.tick }
      let bot := { bot with
        damageDealt := bot.damageDealt + dmg,
        lastCombatTick := st.tick }
      (((st.setBot i bot).setBot (1 - i) enemy)).pushEvent
        { etype := .specialHit, attacker := some bot.id, target := some enemy.id,
          damage := some dmg, position := some enemy.position }
    else st

/-- processDefend of src Combat (lines 411-418). -/
def processDefend (i : ℕ) (st : GState) : GState :=
  let bot := st.getBot i
  if bot.energy < DEFEND_ENERGY_PER_TICK then st
  else
    st.setBot i { bot with
      energy := bot.energy - DEFEND_ENERGY_PER_TICK,
      isDefending := true,
      status := { bot.status with shielded := true },
      actionsUsed := bot.actionsUsed.bump .defend }

/-- processDash of src Combat (lines 420-436). -/
def processDash (i : ℕ) (st : GState) : GState :=
  let bot := st.getBot i
  if bot.cooldowns.dash > 0 ∨ bot.energy < DASH_ENERGY then st
  else
    let bot := { bot with
      energy := bot.energy - DASH_ENERGY,
      cooldowns := { bot.cooldowns with dash := DASH_COOLDOWN },
      actionsUsed := bot.actionsUsed.bump .dash }
    let bot := { bot with
      position := ⟨bot.position.x + bot.facing.x * DASH_DISTANCE,
                   bot.position.y + bot.facing.y * DASH_DISTANCE⟩ }
    (st.setBot i bot).pushEvent
      { etype := .dashUse, attacker := some bot.id, position := some bot.position }

/-- processHeal of src Combat (lines 438-455). -/
def processHeal (i : ℕ) (st : GState) : GState :=
  let bot := st.getBot i
  if bot.cooldowns.heal > 0 ∨ bot.energy < HEAL_ENERGY then st
  else
    let healed := min HEAL_AMOUNT (BOT_HP - bot.hp)
    let bot := { bot with
      energy := bot.energy - HEAL_ENERGY,
      cooldowns := { bot.cooldowns with heal := HEAL_COOLDOWN },
      actionsUsed := bot.actionsUsed.bump .heal,
      hp := min BOT_HP (bot.hp + HEAL_AMOUNT) }
    (st.setBot i bot).pushEvent
      { etype := .healUse, attacker := some bot.id, damage := some healed,
        position := some bot.position }

/-- Count of active traps of a given owner, as the filter length in
processTrap. -/
def activeTrapCount (traps : List Trap) (ownerId : ℕ) : ℕ :=
  (traps.filter fun t => t.ownerId = ownerId ∧ t.active).length

/-- processTrap of src Combat (lines 457-476): gate check, then the per
owner active trap cap; only past both does it spend, set the cooldown,
place the trap and push the event. -/
def processTrap (i : ℕ) (st : GState) : GState :=
  let bot := st.getBot i
  if bot.cooldowns.trap > 0 ∨ bot.energy < TRAP_ENERGY then st
  else if activeTrapCount st.traps bot.id ≥ TRAP_MAX_PER_BOT then st
  else
    let bot := { bot with
      energy := bot.energy - TRAP_ENERGY,
      cooldowns := { bot.cooldowns with trap := TRAP_COOLDOWN },
      actionsUsed := bot.actionsUsed.bump .trap }
    (((st.setBot i bot).addTrap bot.id bot.position)).pushEvent
      { etype := .trapPlace, attacker := some bot.id, position := some bot.position }

/-- The per tick upkeep at the head of processAction (src Combat, lines
221-260): defend reset, cooldown decrements, commit decrement, energy
regeneration, the burn tick, the slow decrement and out of combat
regeneration, in the exact source order. -/
def upkeep (i : ℕ) (st : GState) : GState :=
  let bot := st.getBot i
  let bot := { bot with
    isDefending := false,
    status := { bot.status with shielded := false } }
  let bot := { bot with
    cooldowns :=
      { melee := bot.cooldowns.melee - 1, ranged := bot.cooldowns.ranged - 1,
        special := bot.cooldowns.special - 1, dash := bot.cooldowns.dash - 1,
        heal := bot.cooldowns.heal - 1, trap := bot.cooldowns.trap - 1 },
    status := { bot.status with attackCommit := bot.status.attackCommit - 1 },
    energy := min 100 (bot.energy + ENERGY_REGEN) }
  let burning := bot.status.burning > 0
  let bot :=
    if burning then
      { bot with
        status := { bot.status with burning := bot.status.burning - 1 },
        hp := bot.hp - BURN_DAMAGE,
        damageTaken := bot.damageTaken + BURN_DAMAGE,
        lastCombatTick := st.tick }
    else bot
  let st' :=
    if burning then
      (st.setBot i bot).pushEvent
        { etype := .burnTick, target := some bot.id, damage := some BURN_DAMAGE,
          position := some bot.position }
    else st.setBot i bot
  let bot := { bot with status := { bot.status with slowed := bot.status.slowed - 1 } }
  let bot :=
    if bot.status.burning = 0 ∧ st.tick - bot.lastCombatTick ≥ OOC_REGEN_DELAY then
      { bot with hp := min BOT_HP (bot.hp + OOC_REGEN_RATE) }
    else bot
  st'.setBot i bot

/-- processAction of src Combat (lines 221-291): upkeep, then dispatch of
the requested action to exactly one handler (a null action stops after
upkeep; the enemy lookup always succeeds because the store holds two
bots). -/
def processAction (i : ℕ) (act : Option ActionKind) (st : GState) : GState :=
  let st := upkeep i st
  match act with
  | none => st
  | some .melee => processMelee i st
  | some .ranged => processRanged i st
  | some .special => processSpecial i st
  | some .defend => processDefend i st
  | some .dash => processDash i st
  | some .heal => processHeal i st
  | some .trap => processTrap i st

/-- First bot index (array order 0 then 1) whose id equals the given
one: the source state.bots.find on ids. -/
def GState.findBotIdx (st : GState) (botId : ℕ) : Option ℕ :=
  if st.bot0.id = botId then some 0
  else if st.bot1.id = botId then some 1
  else none

/-- The inner loop of processProjectileHits (src Combat, lines 481-509):
first bot in array order that is not the owner and is within 1.3 units
of the projectile. -/
def projHitTarget (st : GState) (proj : Projectile) : Option ℕ :=
  if st.bot0.id ≠ proj.ownerId ∧ distLtB proj.position st.bot0.position (13 / 10) then
    some 0
  else if st.bot1.id ≠ proj.ownerId ∧ distLtB proj.position st.bot1.position (13 / 10) then
    some 1
  else none

/-- The hit branch of processProjectileHits: defend reduced damage to the
target, credit to the owner when present, and the ranged hit event. -/
def applyProjectileHit (st : GState) (proj : Projectile) (ti : ℕ) : GState :=
  let target := st.getBot ti
  let dmg := if target.isDefending then roundJs (proj.damage * DEFEND_REDUCTION)
             else proj.damage
  let target := { target with
    hp := target.hp - dmg,
    damageTaken := target.damageTaken + dmg,
    lastCombatTick := st.tick }
  let st := st.setBot ti target
  let st :=
    match st.findBotIdx proj.ownerId with
    | some ai =>
        let a := st.getBot ai
        st.setBot ai { a with damageDealt := a.damageDealt + dmg,
                              lastCombatTick := st.tick }
    | none => st
  st.pushEvent
    { etype := .rangedHit, attacker := some proj.ownerId, target := some target.id,
      damage := some dmg, position := some proj.position }

/-- processProjectileHits of src Combat (lines 478-514): each projectile
either hits the first eligible bot and disappears, or survives into the
remaining list. -/
def processProjectileHits (st : GState) : GState :=
  let step := fun (acc : List Projectile × GState) (proj : Projectile) =>
    match projHitTarget acc.2 proj with
    | some ti => (acc.1, applyProjectileHit acc.2 proj ti)
    | none => (acc.1 ++ [proj], acc.2)
  let out := st.projectiles.foldl step ([], st)
  { out.2 with projectiles := out.1 }

/-- One iteration of the checkKO loop (src Combat, lines 516-530) for the
bot at index i: at zero or below, the hp is pinned to 0, the game ends,
the winner becomes the first other bot and a ko event is pushed. -/
def koBot (st : GState) (i : ℕ) : GState :=
  let bot := st.getBot i
  if bot.hp ≤ 0 then
    let st := st.setBot i { bot with hp := 0 }
    let winner :=
      if st.bot0.id ≠ bot.id then some st.bot0.id
      else if st.bot1.id ≠ bot.id then some st.bot1.id
      else none
    ({ st with gameOver := true, winner := winner }).pushEvent
      { etype := .ko, target := some bot.id }
  else st

/-- checkKO of src Combat: the loop body over the two bots in array
order. -/
def checkKO (st : GState) : GState :=
  koBot (koBot st 0) 1

/-- updateVisibility of src/engine/GameState.ts: per bot, sight is line
of sight and field of view together; the last known enemy position cache
is refreshed only when sight holds this tick. -/
def updateVisibility (st : GState) : GState :=
  let obstacles := GState.obstaclesOf st.arenaConfig
  let canSee0 := hasLineOfSight st.bot0.position st.bot1.position obstacles &&
    isInFieldOfView st.bot0.facing st.bot0.position st.bot1.position
  let st := { st with
    visible0 := canSee0,
    lastKnown0 := if canSee0 then st.bot1.position else st.lastKnown0 }
  let canSee1 := hasLineOfSight st.bot1.position st.bot0.position obstacles &&
    isInFieldOfView st.bot1.facing st.bot1.position st.bot0.position
  { st with
    visible1 := canSee1,
    lastKnown1 := if canSee1 then st.bot0.position else st.lastKnown1 }

/-- trySpawnPickup of src/engine/GameState.ts. Math.random is embedded as
an explicit draw stream with a cursor: the source consumes one draw for
the kind and two for the position, and only on interval ticks below the
active cap; a position inside the exclusion radius of an obstacle is
silently dropped with the draws consumed. -/
def trySpawnPickup (ρ : ℕ → ℚ) (k : ℕ) (st : GState) : GState × ℕ :=
  if st.tick % PICKUP_INTERVAL ≠ 0 ∨ st.tick = 0 then (st, k)
  else if (st.pickups.filter fun p => p.active).length ≥ MAX_PICKUPS then (st, k)
  else
    let ty := if ρ k > 1 / 2 then PickupType.health else PickupType.energy
    let pos : Vec2 := ⟨(ρ (k + 1) - 1 / 2) * (ARENA_SIZE - 6),
                       (ρ (k + 2) - 1 / 2) * (ARENA_SIZE - 6)⟩
    let obstacles := GState.obstaclesOf st.arenaConfig
    if obstacles.any fun o => distLtB pos o.position (o.radius + 2) then (st, k + 3)
    else
      ({ st with
          pickups := st.pickups ++ [⟨st.nextPickupId, pos, ty, true⟩],
          nextPickupId := st.nextPickupId + 1 }, k + 3)

/-- The inner loop body of checkPickups for one bot: within range the
pickup deactivates and the bot is healed or energized with the cap
clamp, and a pickup event is pushed. The source inner loop runs over
both bots without a break, which this mirrors. -/
def collectPickup (acc : GState × Pickup) (i : ℕ) : GState × Pickup :=
  let st := acc.1
  let p := acc.2
  let bot := st.getBot i
  if distLtB bot.position p.position (PICKUP_RADIUS + 1) then
    let p := { p with active := false }
    let bot :=
      if p.ptype = .health then { bot with hp := min BOT_HP (bot.hp + HEALTH_PICKUP_AMOUNT) }
      else { bot with energy := min BOT_ENERGY (bot.energy + ENERGY_PICKUP_AMOUNT) }
    ((st.setBot i bot).pushEvent
      { etype := .pickup, target := some bot.id, position := some p.position }, p)
  else (st, p)

/-- checkPickups of src/engine/GameState.ts: inactive pickups are
skipped; active ones are offered to both bots in array order. -/
def checkPickups (st : GState) : GState :=
  let step := fun (acc : GState × List Pickup) (p : Pickup) =>
    if !p.active then (acc.1, acc.2 ++ [p])
    else
      let out := collectPickup (collectPickup (acc.1, p) 0) 1
      (out.1, acc.2 ++ [out.2])
  let out := st.pickups.foldl step (st, [])
  { out.1 with pickups := out.2 }

/-- The inner loop body of checkTraps for one bot: the owner is skipped;
a non owner within the trigger radius deactivates the trap, takes the
fixed damage and the slow, credits the owner and pushes the trigger
event. -/
def trapHitBot (acc : GState × Trap) (i : ℕ) : GState × Trap :=
  let st := acc.1
  let t := acc.2
  let bot := st.getBot i
  if bot.id = t.ownerId then (st, t)
  else if distLtB bot.position t.position (TRAP_RADIUS + 1) then
    let t := { t with active := false }
    let bot := { bot with
      hp := bot.hp - TRAP_DAMAGE,
      damageTaken := bot.damageTaken + TRAP_DAMAGE,
      status := { bot.status with slowed := TRAP_SLOW_DURATION },
      lastCombatTick := st.tick }
    let st := st.setBot i bot
    let st :=
      match st.findBotIdx t.ownerId with
      | some oi =>
          let o := st.getBot oi
          st.setBot oi { o with damageDealt := o.damageDealt + TRAP_DAMAGE,
                                lastCombatTick := st.tick }
      | none => st
    (st.pushEvent
      { etype := .trapTrigger, attacker := some t.ownerId, target := some bot.id,
        damage := some TRAP_DAMAGE, position := some t.position }, t)
  else (st, t)

/-- checkTraps of src/engine/GameState.ts: active traps age one tick and
are offered to both bots in array order (the source loop has no break;
with two bots only the single non owner can trigger). -/
def checkTraps (st : GState) : GState :=
  let step := fun (acc : GState × List Trap) (t : Trap) =>
    if !t.active then (acc.1, acc.2 ++ [t])
    else
      let t := { t with lifetime := t.lifetime + 1 }
      let out := trapHitBot (trapHitBot (acc.1, t) 0) 1
      (out.1, acc.2 ++ [out.2])
  let out := st.traps.foldl step (st, [])
  { out.1 with traps := out.2 }

/-- clearEvents of src/engine/GameState.ts. -/
def GState.clearEvents (st : GState) : GState :=
  { st with events := [] }

/-- createBot of src/engine/GameState.ts. -/
def createBot (id : ℕ) (pos : Vec2) : Bot :=
  { id := id
    hp := BOT_HP
    energy := BOT_ENERGY
    position := pos
    facing := if id = 0 then ⟨1, 0⟩ else ⟨-1, 0⟩
    velocity := ⟨0, 0⟩
    cooldowns := ⟨0, 0, 0, 0, 0, 0⟩
    status := ⟨0, 0, false, 0⟩
    lastCombatTick := 0
    momentum := 0
    isDefending := false
    damageDealt := 0
    damageTaken := 0
    actionsUsed := {} }

/-- init of src/engine/GameState.ts, with the arena config already
installed as in the source (spawn fallbacks at minus and plus ten). -/
def GState.init (cfg : Option ArenaConfig) : GState :=
  let spawn1 := match cfg with | some c => c.spawnPoints.1 | none => ⟨-10, 0⟩
  let spawn2 := match cfg with | some c => c.spawnPoints.2 | none => ⟨10, 0⟩
  { bot0 := createBot 0 spawn1
    bot1 := createBot 1 spawn2
    projectiles := []
    pickups := []
    traps := []
    tick := 0
    events := []
    gameOver := false
    winner := none
    arenaConfig := cfg
    lastKnown0 := spawn2
    lastKnown1 := spawn1
    visible0 := true
    visible1 := true
    nextProjectileId := 0
    nextPickupId := 0
    nextTrapId := 0 }

/-- sampleTerrainHeight of src/arena/ArenaGenerator.ts: bilinear
interpolation on the row major heightmap, grid indices floored and
clamped into range. For a well formed terrain (resolution ge 1, a
heightmap of resolution squared entries, nonzero arena size) this is the
source computation exactly; the missing entry default 0 is never reached
there. -/
def sampleTerrainHeight (t : TerrainData) (wx wy : ℚ) : ℚ :=
  let res := t.resolution
  let gx := (wx / t.arenaSize + 1 / 2) * ((res : ℚ) - 1)
  let gy := (wy / t.arenaSize + 1 / 2) * ((res : ℚ) - 1)
  let ix : ℤ := ⌊gx⌋
  let iy : ℤ := ⌊gy⌋
  let fx := gx - ix
  let fy := gy - iy
  let cl := fun (z : ℤ) => (max 0 (min ((res : ℤ) - 1) z)).toNat
  let h := fun (j i : ℕ) => t.heightmap.getD (j * res + i) 0
  h (cl iy) (cl ix) * (1 - fx) * (1 - fy) +
    h (cl iy) (cl (ix + 1)) * fx * (1 - fy) +
    h (cl (iy + 1)) (cl ix) * (1 - fx) * fy +
    h (cl (iy + 1)) (cl (ix + 1)) * fx * fy

/-- Squared slope at a world position: sampleTerrainSlope of
src/arena/ArenaGenerator.ts computes sqrt of exactly this quantity (the
central differences over half unit steps divide by one). -/
def sampleSlope2 (t : TerrainData) (wx wy : ℚ) : ℚ :=
  let hL := sampleTerrainHeight t (wx - 1 / 2) wy
  let hR := sampleTerrainHeight t (wx + 1 / 2) wy
  let hD := sampleTerrainHeight t wx (wy - 1 / 2)
  let hU := sampleTerrainHeight t wx (wy + 1 / 2)
  (hR - hL) * (hR - hL) + (hU - hD) * (hU - hD)

/-- applyMovement of src/engine/Physics.ts. Comparisons against sqrt
quantities are in squared form: magnitude > 1 iff squared magnitude > 1;
slope thresholds against TERRAIN_SLOPE_MAX and 0.1 square both sides;
the momentum guards oldVelMag > 0.01 and newMoveMag > 0.01 and the
alignment > 0.7 test square both sides under the positivity the guards
provide. The slope value entering the uphill and downhill multipliers
and the normalization of an oversized move vector use ratSqrt. -/
def applyMovement (b : Bot) (move : Vec2) (terrain : Option TerrainData) : Bot :=
  let mag2 := Vec2.norm2 move
  let m : Vec2 :=
    if mag2 > 1 then
      let mag := ratSqrt mag2
      ⟨move.x / mag, move.y / mag⟩
    else move
  let speed := if b.status.slowed > 0 then BOT_SPEED * (1 / 2) else BOT_SPEED
  let speed :=
    match terrain with
    | none => speed
    | some t =>
        let s2 := sampleSlope2 t b.position.x b.position.y
        if s2 > TERRAIN_SLOPE_MAX * TERRAIN_SLOPE_MAX then speed * (1 / 10)
        else if s2 > 1 / 100 then
          let slope := ratSqrt s2
          let hCurrent := sampleTerrainHeight t b.position.x b.position.y
          let hAhead := sampleTerrainHeight t (b.position.x + m.x * (1 / 2))
            (b.position.y + m.y * (1 / 2))
          if hAhead > hCurrent then speed * max (2 / 5) (1 - slope * (4 / 5))
          else speed * min (7 / 5) (1 + slope * (3 / 10))
        else speed
  let ov2 := Vec2.norm2 b.velocity
  let nm2 := Vec2.norm2 m
  let momentum :=
    if ov2 > 1 / 10000 ∧ nm2 > 1 / 10000 then
      let al := b.velocity.x * m.x + b.velocity.y * m.y
      if 0 < al ∧ 49 * (ov2 * nm2) < 100 * (al * al) then
        min 1 (b.momentum + MOMENTUM_BUILDUP)
      else b.momentum * MOMENTUM_DECAY
    else b.momentum * MOMENTUM_DECAY
  let out :=
    if b.status.attackCommit > 0 then (speed * COMMIT_SPEED_MULT, (0 : ℚ))
    else (speed * (1 + momentum * MOMENTUM_MAX_BONUS), momentum)
  let vel : Vec2 := ⟨m.x * out.1, m.y * out.1⟩
  { b with
    momentum := out.2
    velocity := vel
    position := ⟨b.position.x + vel.x, b.position.y + vel.y⟩ }

/-- applyFacing of src/engine/Physics.ts: a nonzero aim is normalized
into the facing (len > 0 iff squared len > 0). -/
def applyFacing (b : Bot) (aim : Vec2) : Bot :=
  let l2 := Vec2.norm2 aim
  if l2 > 0 then
    let len := ratSqrt l2
    { b with facing := ⟨aim.x / len, aim.y / len⟩ }
  else b

/-- clampToBounds of src/engine/Physics.ts. -/
def clampToBounds (b : Bot) : Bot :=
  let limit := ARENA_HALF - BOT_RADIUS
  { b with position := ⟨max (-limit) (min limit b.position.x),
                        max (-limit) (min limit b.position.y)⟩ }

/-- resolveBotCollision of src/engine/Physics.ts: symmetric separation by
half the overlap along the normalized axis (the overlap distance uses
ratSqrt; the two guards are in squared form). -/
def resolveBotCollision (a b : Bot) : Bot × Bot :=
  let d2 := dist2 a.position b.position
  let minDist := BOT_RADIUS * 2
  if d2 < minDist * minDist ∧ 0 < d2 then
    let dist := ratSqrt d2
    let dir := normalize (Vec2.sub b.position a.position)
    let overlap := (minDist - dist) / 2
    ({ a with position := ⟨a.position.x - dir.x * overlap,
                           a.position.y - dir.y * overlap⟩ },
     { b with position := ⟨b.position.x + dir.x * overlap,
                           b.position.y + dir.y * overlap⟩ })
  else (a, b)

/-- resolveObstacleCollision of src/engine/Physics.ts, with the dynamic
obstacle list when an arena config is installed and the constants
fallback otherwise. -/
def resolveObstacleCollision (b : Bot) (dynObstacles : Option (List Obstacle)) : Bot :=
  let obstacles :=
    match dynObstacles with
    | some l => l
    | none => DEFAULT_OBSTACLES.map fun (o : Vec2 × ℚ) => (⟨o.1, o.2⟩ : Obstacle)
  obstacles.foldl
    (fun bot o =>
      let d2 := dist2 bot.position o.position
      let minDist := BOT_RADIUS + o.radius
      if d2 < minDist * minDist ∧ 0 < d2 then
        let dist := ratSqrt d2
        let dir := normalize (Vec2.sub bot.position o.position)
        let overlap := minDist - dist
        { bot with position := ⟨bot.position.x + dir.x * overlap,
                                bot.position.y + dir.y * overlap⟩ }
      else bot)
    b

/-- updateProjectiles of src/engine/Physics.ts: integrate, age, then drop
on out of bounds, obstacle contact or exhausted lifetime. -/
def updateProjectiles (projectiles : List Projectile)
    (dynObstacles : Option (List Obstacle)) : List Projectile :=
  let obstacles :=
    match dynObstacles with
    | some l => l
    | none => DEFAULT_OBSTACLES.map fun (o : Vec2 × ℚ) => (⟨o.1, o.2⟩ : Obstacle)
  projectiles.filterMap fun p =>
    let p := { p with
      position := ⟨p.position.x + p.velocity.x, p.position.y + p.velocity.y⟩,
      lifetime := p.lifetime - 1 }
    if ARENA_HALF < |p.position.x| ∨ ARENA_HALF < |p.position.y| then none
    else if obstacles.any fun o => distLtB p.position o.position o.radius then none
    else if p.lifetime > 0 then some p else none

/-- The sight transition diff of GameLoop.tick (lines 101-120): one lost
or gained sight event per bot whose visibility flipped this tick. -/
def sightEvents (prev0 prev1 : Bool) (st : GState) : GState :=
  let st :=
    if prev0 ∧ !st.visible0 then
      st.pushEvent { etype := .lostSight, attacker := some 0, target := some 1 }
    else if !prev0 ∧ st.visible0 then
      st.pushEvent { etype := .gainedSight, attacker := some 0, target := some 1 }
    else st
  if prev1 ∧ !st.visible1 then
    st.pushEvent { etype := .lostSight, attacker := some 1, target := some 0 }
  else if !prev1 ∧ st.visible1 then
    st.pushEvent { etype := .gainedSight, attacker := some 1, target := some 0 }
  else st

/-- The end of tick outcome evaluation of GameLoop.tick (lines 139-148):
the knockout sweep, then the maximum tick rule awarding the higher hp
bot or a tie. -/
def resolveOutcome (st : GState) : GState :=
  let st := checkKO st
  if st.tick ≥ MAX_TICKS ∧ st.gameOver = false then
    { st with
      gameOver := true
      winner :=
        if st.bot0.hp > st.bot1.hp then some st.bot0.id
        else if st.bot1.hp > st.bot0.hp then some st.bot1.id
        else none }
  else st

/-- The per bot application block of GameLoop.tick (lines 82-91):
movement, then facing, then the action (the sanitized action always
carries move and aim objects, so both branches run). -/
def applyBotAction (i : ℕ) (a : BotAction) (st : GState) : GState :=
  let terrain := st.arenaConfig.map fun c => c.terrain
  let st := st.setBot i (applyMovement (st.getBot i) a.move terrain)
  let st := st.setBot i (applyFacing (st.getBot i) a.aim)
  processAction i a.action st

/-- The head of GameLoop.tick (lines 64-99): clear events, advance the
tick counter, apply both bot actions in the fixed order 0 then 1, then
resolve obstacle, bounds and bot collisions. -/
def tickPre (a0 a1 : BotAction) (st : GState) : GState :=
  let st := st.clearEvents
  let st := { st with tick := st.tick + 1 }
  let st := applyBotAction 0 a0 st
  let st := applyBotAction 1 a1 st
  let dynObs := st.arenaConfig.map fun c => c.obstacles
  let st := st.setBot 0 (clampToBounds (resolveObstacleCollision (st.getBot 0) dynObs))
  let st := st.setBot 1 (clampToBounds (resolveObstacleCollision (st.getBot 1) dynObs))
  let bb := resolveBotCollision (st.getBot 0) (st.getBot 1)
  (st.setBot 0 bb.1).setBot 1 bb.2

/-- The tail of GameLoop.tick (lines 122-148): projectiles, pickups,
traps and the outcome evaluation. The source computes the dynamic
obstacle list once per tick; the arena config field never changes inside
a tick, so recomputing it here is the same list. -/
def tickPost (ρ : ℕ → ℚ) (k : ℕ) (st : GState) : GState × ℕ :=
  let dynObs := st.arenaConfig.map fun c => c.obstacles
  let st := { st with projectiles := updateProjectiles st.projectiles dynObs }
  let st := processProjectileHits st
  let out := trySpawnPickup ρ k st
  let st := checkPickups out.1
  let st := checkTraps st
  let st := { st with traps := st.traps.filter fun t => t.active ∧ t.lifetime < TRAP_LIFETIME }
  (resolveOutcome st, out.2)

/-- GameLoop.tick of src/engine/GameLoop.ts (lines 61-148), the state
mutating pipeline in source order; the interpolation snapshots and the
publication callback have no effect on the state. The ambient Math.random
of pickup spawning is threaded as a draw stream with a cursor. -/
def tickStep (ρ : ℕ → ℚ) (a0 a1 : BotAction) (st : GState) (k : ℕ) : GState × ℕ :=
  let st := tickPre a0 a1 st
  let prev0 := st.visible0
  let prev1 := st.visible1
  let st := updateVisibility st
  let st := sightEvents prev0 prev1 st
  tickPost ρ k st

/-- A whole match run: n scheduler ticks from the initialized state, the
decision sequence and the random stream given as inputs; once the state
reports game over the loop stops rescheduling, freezing the state. -/
def runMatch (cfg : Option ArenaConfig) (dec : ℕ → BotAction × BotAction)
    (ρ : ℕ → ℚ) : ℕ → GState × ℕ
  | 0 => (GState.init cfg, 0)
  | n + 1 =>
      let out := runMatch cfg dec ρ n
      if out.1.gameOver then out
      else tickStep ρ (dec n).1 (dec n).2 out.1 out.2

/-! Sandbox host models: the bot worker (src/bots/bot-worker.ts, first
section) and the BotRunner that owns it (same file, second section). The
dynamic JS values crossing the worker boundary are embedded at the
granularity the handlers inspect them: each numeric field as the result
of Number on it (none for NaN), the action field as the raw string when
one is present. -/

/-- The raw value a think function returns, as the tick handler probes
it: the four optionally chained numeric fields after Number (none
meaning NaN, from a missing or non numeric field), and the raw action
value when it is a string (a non string action can never be in the
allowed list, so none also covers it). -/
structure RawAction where
  moveX : Option ℚ
  moveY : Option ℚ
  aimX : Option ℚ
  aimY : Option ℚ
  action : Option String
deriving DecidableEq, Repr

/-- The action allow list of the tick handler (bot-worker line 103),
mapping member strings to the closed action set and everything else to
null. -/
def parseActionName (s : String) : Option ActionKind :=
  if s = "melee" then some .melee
  else if s = "ranged" then some .ranged
  else if s = "special" then some .special
  else if s = "defend" then some .defend
  else if s = "dash" then some .dash
  else if s = "heal" then some .heal
  else if s = "trap" then some .trap
  else none

/-- Number(x) or 0 of the tick handler: NaN collapses to 0, every number
passes through (0 is a fixed point of the or). -/
def coerceNum (v : Option ℚ) : ℚ :=
  match v with
  | some q => q
  | none => 0

/-- The literal allow list array of the tick handler (bot-worker line
103). -/
def allowedActions : List String :=
  ["melee", "ranged", "special", "defend", "dash", "heal", "trap"]

/-- The sanitize block of the tick handler (bot-worker lines 93-106). -/
def sanitizeAction (r : RawAction) : BotAction :=
  { move := ⟨coerceNum r.moveX, coerceNum r.moveY⟩
    aim := ⟨coerceNum r.aimX, coerceNum r.aimY⟩
    action := r.action.bind parseActionName }

/-- One invocation of the bound think function: it either throws or
returns a raw value. -/
inductive ThinkOutcome where
  | throws
  | returns (r : RawAction)
deriving DecidableEq, Repr

/-- The tick branch of the worker message handler (bot-worker lines
80-115): no bound function posts the neutral default, a throwing call is
caught into the neutral default, and a returned value is sanitized. -/
def workerTickReply : Option ThinkOutcome → BotAction
  | none => neutralAction
  | some .throws => neutralAction
  | some (.returns r) => sanitizeAction r

/-- How a BotRunner.getAction call (bot-worker second section, lines
218-242) concludes: missing or unready worker, the 50 ms timeout, or a
worker reply within the bound. -/
inductive DecideOutcome where
  | notReady
  | timeout
  | reply (o : Option ThinkOutcome)
deriving DecidableEq, Repr

/-- The action a decide call resolves with: the neutral default on a
missing worker or on timeout, otherwise the worker tick reply. The
promise always resolves; no fault propagates as an exception. -/
def decideResult : DecideOutcome → BotAction
  | .notReady => neutralAction
  | .timeout => neutralAction
  | .reply o => workerTickReply o

/-- Worker side state: the single bound think function of the execution
context. -/
structure WorkerEnv (F : Type) where
  thinkFn : Option F
deriving DecidableEq, Repr

/-- Reply the recompile handler posts back. -/
inductive RecompileReply where
  | recompiled
  | recompileError
deriving DecidableEq, Repr

/-- The recompile branch of the worker message handler (bot-worker lines
63-78), with the validation and compilation steps as the functions the
handler calls (validate returns the first forbidden pattern message if
any; compile models new Function and the think typeof check, which can
throw). Only when both succeed is the binding replaced. -/
def handleRecompile {F : Type} (validate : String → Option String)
    (compile : String → Except String F) (env : WorkerEnv F) (code : String) :
    WorkerEnv F × RecompileReply :=
  match validate code with
  | some _ => (env, .recompileError)
  | none =>
      match compile code with
      | .error _ => (env, .recompileError)
      | .ok f => ({ thinkFn := some f }, .recompiled)

/-- BotRunner.hotSwapCode reports the worker reply as a boolean: true
exactly on the recompiled reply. -/
def hotSwapReported : RecompileReply → Bool
  | .recompiled => true
  | .recompileError => false

/-- Events at the BotRunner pending action map for one bot: a decide
request registering its resolver, the 50 ms timeout of a given request
firing, and a worker action reply arriving. The origin of a reply is the
request whose tick message produced it; the source handler never reads
it (replies carry no correlation id), the model keeps it to state
attribution properties. -/
inductive RunnerEvent where
  | request (r : ℕ)
  | timeoutFire (r : ℕ)
  | workerReply (origin : ℕ)
deriving DecidableEq, Repr

/-- A recorded resolution: which request resolved, and the origin of the
worker reply that resolved it, none when the timeout resolved it with
the neutral default. -/
structure Resolution where
  req : ℕ
  source : Option ℕ
deriving DecidableEq, Repr

/-- BotRunner state for one bot: the registered resolver if any, and the
log of resolved requests. -/
structure RunnerState where
  pending : Option ℕ
  resolutions : List Resolution
deriving DecidableEq, Repr

/-- The request ids already resolved (their resolver ran, which in the
source also cleared their timeout). -/
def resolvedReqs (st : RunnerState) : List ℕ :=
  st.resolutions.map fun r => r.req

/-- One event at the pending map, mirroring bot-worker lines 142-166 and
218-242: a request overwrites the map slot with its resolver; a timeout
that was not cleared deletes the slot and resolves its request with the
neutral default; a worker reply resolves whatever request currently owns
the slot and is dropped when the slot is empty. -/
def runnerStep (st : RunnerState) : RunnerEvent → RunnerState
  | .request r => { st with pending := some r }
  | .timeoutFire r =>
      if r ∈ resolvedReqs st then st
      else { pending := none, resolutions := st.resolutions ++ [⟨r, none⟩] }
  | .workerReply origin =>
      match st.pending with
      | some r => { pending := none, resolutions := st.resolutions ++ [⟨r, some origin⟩] }
      | none => st

/-- Run the pending map over an event trace from the idle state. -/
def runnerRun (es : List RunnerEvent) : RunnerState :=
  es.foldl runnerStep ⟨none, []⟩

/-! Derived quantities and concrete inputs used by the theorems. -/

/-- Number of events of a given tag attributed to a given agent. -/
def sightCount (l : List GameEvent) (t : EventType) (i : ℕ) : ℕ :=
  (l.filter fun e => e.etype = t ∧ e.attacker = some i).length

/-- Frame relation between states for the sight transition claim: the
second state has the same lost and gained sight event counts, and the
same visibility flags and last known position caches, as the first. -/
def SightEventsFrame (s s' : GState) : Prop :=
  (∀ t j, (t = EventType.lostSight ∨ t = EventType.gainedSight) →
    sightCount s'.events t j = sightCount s.events t j) ∧
  s'.visible0 = s.visible0 ∧ s'.visible1 = s.visible1 ∧
  s'.lastKnown0 = s.lastKnown0 ∧ s'.lastKnown1 = s.lastKnown1

/-- SightEventsFrame strengthened with unchanged bot positions, used for
the pipeline stages after the visibility update. -/
def SightFrame (s s' : GState) : Prop :=
  SightEventsFrame s s' ∧
  s'.bot0.position = s.bot0.position ∧ s'.bot1.position = s.bot1.position

/-- Energy within its range, hp under its cap: the part of the invariant
that holds at every point of a tick. -/
def BotMid (b : Bot) : Prop :=
  b.hp ≤ BOT_HP ∧ 0 ≤ b.energy ∧ b.energy ≤ BOT_ENERGY

/-- Every live projectile carries nonnegative damage (they are created
with the fixed ranged damage). -/
def ProjOK (st : GState) : Prop :=
  ∀ p ∈ st.projectiles, 0 ≤ p.damage

/-- The inductive invariant carried through the tick pipeline: both bots
within the mid tick bounds and all projectiles well formed. -/
def StateMid (st : GState) : Prop :=
  BotMid st.bot0 ∧ BotMid st.bot1 ∧ ProjOK st

/-- Published state invariant of the spec: hp in zero to HP max and
energy in zero to energy max, for both agents. -/
def BotBounds (st : GState) : Prop :=
  (0 ≤ st.bot0.hp ∧ st.bot0.hp ≤ BOT_HP ∧ 0 ≤ st.bot0.energy ∧ st.bot0.energy ≤ BOT_ENERGY) ∧
  (0 ≤ st.bot1.hp ∧ st.bot1.hp ≤ BOT_HP ∧ 0 ≤ st.bot1.energy ∧ st.bot1.energy ≤ BOT_ENERGY)

/-- The freshly initialized default state (no arena config installed). -/
def baseState : GState := GState.init none

/-- A state whose first bot already owns the per owner cap of active
traps. -/
def trapCapState : GState :=
  { baseState with traps := [⟨0, 0, ⟨0, 0⟩, 0, true⟩, ⟨1, 0, ⟨0, 0⟩, 0, true⟩] }

/-- A state in which both bots are at or below zero hp at the knockout
sweep. -/
def doubleKoState : GState :=
  { baseState with
    bot0 := { baseState.bot0 with hp := 0 }
    bot1 := { baseState.bot1 with hp := -3 } }

/-- A state reaching the maximum tick count with both bots alive at
equal hp. -/
def tieState : GState :=
  { baseState with tick := MAX_TICKS }

/-- A flat two by two arena with no obstacles and spawns on the x axis,
used for the concrete runs. -/
def flatArena : ArenaConfig :=
  { obstacles := []
    terrain := { heightmap := [0, 0, 0, 0], resolution := 2, arenaSize := 40 }
    spawnPoints := (⟨-12, 0⟩, ⟨12, 0⟩) }

/-- The all neutral decision sequence. -/
def decNeutral : ℕ → BotAction × BotAction := fun _ => (neutralAction, neutralAction)

/-- A random stream whose first position draw places the first pickup at
the first bot. -/
def rhoHit : ℕ → ℚ := fun k => if k = 1 then 5 / 34 else 1 / 2

/-- A random stream placing the first pickup at the arena center, away
from both bots. -/
def rhoCenter : ℕ → ℚ := fun _ => 1 / 2

/-- A malformed raw think result: NaN move x, fractional move y, zero
aim x, NaN aim y, and an action string outside the allowed set. -/
def rawOdd : RawAction := ⟨none, some (7 / 2), some 0, none, some "explode"⟩

/-- Event trace at the pending map: request 1, its timeout, request 2,
then the late reply computed for request 1. -/
def lateReplyTrace : List RunnerEvent :=
  [.request 1, .timeoutFire 1, .request 2, .workerReply 1]

/-! Helper lemmas: record update projections for the state accessors. -/

@[simp]
theorem getBot_zero (st : GState) : st.getBot 0 = st.bot0 := rfl

@[simp]
theorem getBot_one (st : GState) : st.getBot 1 = st.bot1 := rfl

theorem setBot_zero (st : GState) (b : Bot) : st.setBot 0 b = { st with bot0 := b } := rfl

theorem setBot_one (st : GState) (b : Bot) : st.setBot 1 b = { st with bot1 := b } := rfl

@[simp]
theorem setBot_events (st : GState) (i : ℕ) (b : Bot) :
    (st.setBot i b).events = st.events := by
  unfold GState.setBot; split <;> rfl

@[simp]
theorem setBot_tick (st : GState) (i : ℕ) (b : Bot) :
    (st.setBot i b).tick = st.tick := by
  unfold GState.setBot; split <;> rfl

@[simp]
theorem setBot_traps (st : GState) (i : ℕ) (b : Bot) :
    (st.setBot i b).traps = st.traps := by
  unfold GState.setBot; split <;> rfl

@[simp]
theorem setBot_pickups (st : GState) (i : ℕ) (b : Bot) :
    (st.setBot i b).pickups = st.pickups := by
  unfold GState.setBot; split <;> rfl

@[simp]
theorem setBot_projectiles (st : GState) (i : ℕ) (b : Bot) :
    (st.setBot i b).projectiles = st.projectiles := by
  unfold GState.setBot; split <;> rfl

@[simp]
theorem setBot_gameOver (st : GState) (i : ℕ) (b : Bot) :
    (st.setBot i b).gameOver = st.gameOver := by
  unfold GState.setBot; split <;> rfl

@[simp]
theorem setBot_winner (st : GState) (i : ℕ) (b : Bot) :
    (st.setBot i b).winner = st.winner := by
  unfold GState.setBot; split <;> rfl

@[simp]
theorem setBot_arenaConfig (st : GState) (i : ℕ) (b : Bot) :
    (st.setBot i b).arenaConfig = st.arenaConfig := by
  unfold GState.setBot; split <;> rfl

@[simp]
theorem setBot_visible0 (st : GState) (i : ℕ) (b : Bot) :
    (st.setBot i b).visible0 = st.visible0 := by
  unfold GState.setBot; split <;> rfl

@[simp]
theorem setBot_visible1 (st : GState) (i : ℕ) (b : Bot) :
    (st.setBot i b).visible1 = st.visible1 := by
  unfold GState.setBot; split <;> rfl

@[simp]
theorem setBot_lastKnown0 (st : GState) (i : ℕ) (b : Bot) :
    (st.setBot i b).lastKnown0 = st.lastKnown0 := by
  unfold GState.setBot; split <;> rfl

@[simp]
theorem setBot_lastKnown1 (st : GState) (i : ℕ) (b : Bot) :
    (st.setBot i b).lastKnown1 = st.lastKnown1 := by
  unfold GState.setBot; split <;> rfl

@[simp]
theorem pushEvent_bot0 (st : GState) (e : GameEvent) :
    (st.pushEvent e).bot0 = st.bot0 := rfl

@[simp]
theorem pushEvent_bot1 (st : GState) (e : GameEvent) :
    (st.pushEvent e).bot1 = st.bot1 := rfl

@[simp]
theorem pushEvent_events (st : GState) (e : GameEvent) :
    (st.pushEvent e).events = st.events ++ [e] := rfl

@[simp]
theorem pushEvent_tick (st : GState) (e : GameEvent) :
    (st.pushEvent e).tick = st.tick := rfl

@[simp]
theorem pushEvent_visible0 (st : GState) (e : GameEvent) :
    (st.pushEvent e).visible0 = st.visible0 := rfl

@[simp]
theorem pushEvent_visible1 (st : GState) (e : GameEvent) :
    (st.pushEvent e).visible1 = st.visible1 := rfl

@[simp]
theorem pushEvent_lastKnown0 (st : GState) (e : GameEvent) :
    (st.pushEvent e).lastKnown0 = st.lastKnown0 := rfl

@[simp]
theorem pushEvent_lastKnown1 (st : GState) (e : GameEvent) :
    (st.pushEvent e).lastKnown1 = st.lastKnown1 := rfl

@[simp]
theorem getBot_setBot_same (st : GState) (i : ℕ) (b : Bot) :
    (st.setBot i b).getBot i = b := by
  unfold GState.setBot GState.getBot; split <;> simp_all

@[simp]
theorem getBot_pushEvent (st : GState) (e : GameEvent) (i : ℕ) :
    (st.pushEvent e).getBot i = st.getBot i := by
  unfold GState.getBot GState.pushEvent; split <;> rfl

@[simp]
theorem setBot_bot0 (st : GState) (i : ℕ) (b : Bot) :
    (st.setBot i b).bot0 = if i = 0 then b else st.bot0 := by
  unfold GState.setBot; split <;> simp_all

@[simp]
theorem setBot_bot1 (st : GState) (i : ℕ) (b : Bot) :
    (st.setBot i b).bot1 = if i = 0 then st.bot1 else b := by
  unfold GState.setBot; split <;> simp_all

/-! Claim C9: a trap request from an owner already at the active trap cap
is a complete no op. -/

/-- C9: when the requesting bot already owns at least the per owner cap
of active traps, processTrap returns the state unchanged: no energy
spent, no cooldown set, no trap placed, no event pushed. -/
theorem trap_cap_noop (i : ℕ) (st : GState)
    (h : TRAP_MAX_PER_BOT ≤ activeTrapCount st.traps (st.getBot i).id) :
    processTrap i st = st := by
  unfold processTrap
  by_cases hg : (st.getBot i).cooldowns.trap > 0 ∨ (st.getBot i).energy < TRAP_ENERGY
  · simp [hg]
  · simp [hg, h]

/-- Witness for C9 at a concrete capped state. -/
theorem trap_cap_noop_witness :
    TRAP_MAX_PER_BOT ≤ activeTrapCount trapCapState.traps (trapCapState.getBot 0).id ∧
    processTrap 0 trapCapState = trapCapState :=
  ⟨by decide, trap_cap_noop 0 trapCapState (by decide)⟩

/-! Claim C10: the double knockout sweep. -/

/-- C10: when both bots are at or below zero hp at the knockout sweep,
the sweep visits them in array order, so the winner field last written
names bot 0, the game is over, both hp are pinned to exactly zero and a
knockout event is pushed for each bot in order. -/
theorem double_ko_bot0_wins (st : GState)
    (h0 : st.bot0.hp ≤ 0) (h1 : st.bot1.hp ≤ 0)
    (hid0 : st.bot0.id = 0) (hid1 : st.bot1.id = 1) :
    (checkKO st).gameOver = true ∧
    (checkKO st).winner = some 0 ∧
    (checkKO st).bot0.hp = 0 ∧ (checkKO st).bot1.hp = 0 ∧
    (checkKO st).events =
      st.events ++ [{ etype := .ko, target := some 0 }, { etype := .ko, target := some 1 }] := by
  unfold checkKO koBot
  simp [GState.getBot, GState.setBot, GState.pushEvent, hid0, hid1, h0, h1]

/-- Witness for C10 at a concrete double knockout state. -/
theorem double_ko_bot0_wins_witness :
    doubleKoState.bot0.hp ≤ 0 ∧ doubleKoState.bot1.hp ≤ 0 ∧
    (checkKO doubleKoState).winner = some 0 ∧
    (checkKO doubleKoState).gameOver = true := by
  have h := double_ko_bot0_wins doubleKoState (by decide) (by decide) (by decide) (by decide)
  exact ⟨by decide, by decide, h.2.1, h.1⟩

/-! Claim C2: the decide call boundary. -/

/-- A string outside the allow list never parses to an action. -/
theorem parseActionName_of_not_mem (s : String) (h : s ∉ allowedActions) :
    parseActionName s = none := by
  simp only [allowedActions, List.mem_cons, List.mem_singleton, not_or] at h
  obtain ⟨h1, h2, h3, h4, h5, h6, h7⟩ := h
  simp [parseActionName, h1, h2, h3, h4, h5, h6, h7]

/-- A string that parses to an action is in the allow list. -/
theorem mem_of_parseActionName (s : String) (a : ActionKind)
    (h : parseActionName s = some a) : s ∈ allowedActions := by
  by_contra hmem
  rw [parseActionName_of_not_mem s hmem] at h
  exact Option.noConfusion h

/-- C2: every faulted decide call (timeout, missing or unready worker, a
throwing think function, no bound function) resolves with the neutral
default rather than raising; a returned value has each numeric field
coerced with NaN collapsing to 0, and its action field is kept only when
it is a string of the fixed allow list, anything else becoming null. The
boundary is a total function: no outcome propagates an exception. -/
theorem decide_call_sanitizes :
    decideResult .timeout = neutralAction ∧
    decideResult .notReady = neutralAction ∧
    decideResult (.reply (some .throws)) = neutralAction ∧
    decideResult (.reply none) = neutralAction ∧
    (∀ r : RawAction,
      (r.moveX = none → (decideResult (.reply (some (.returns r)))).move.x = 0) ∧
      (∀ q, r.moveX = some q → (decideResult (.reply (some (.returns r)))).move.x = q) ∧
      (r.moveY = none → (decideResult (.reply (some (.returns r)))).move.y = 0) ∧
      (∀ q, r.moveY = some q → (decideResult (.reply (some (.returns r)))).move.y = q) ∧
      (r.aimX = none → (decideResult (.reply (some (.returns r)))).aim.x = 0) ∧
      (∀ q, r.aimX = some q → (decideResult (.reply (some (.returns r)))).aim.x = q) ∧
      (r.aimY = none → (decideResult (.reply (some (.returns r)))).aim.y = 0) ∧
      (∀ q, r.aimY = some q → (decideResult (.reply (some (.returns r)))).aim.y = q) ∧
      (∀ s, r.action = some s → s ∉ allowedActions →
        (decideResult (.reply (some (.returns r)))).action = none) ∧
      (r.action = none → (decideResult (.reply (some (.returns r)))).action = none) ∧
      (∀ a, (decideResult (.reply (some (.returns r)))).action = some a →
        ∃ s, r.action = some s ∧ s ∈ allowedActions)) := by
  refine ⟨rfl, rfl, rfl, rfl, fun r => ?_⟩
  refine ⟨?_, ?_, ?_, ?_, ?_, ?_, ?_, ?_, ?_, ?_, ?_⟩
  · intro h; simp [decideResult, workerTickReply, sanitizeAction, coerceNum, h]
  · intro q h; simp [decideResult, workerTickReply, sanitizeAction, coerceNum, h]
  · intro h; simp [decideResult, workerTickReply, sanitizeAction, coerceNum, h]
  · intro q h; simp [decideResult, workerTickReply, sanitizeAction, coerceNum, h]
  · intro h; simp [decideResult, workerTickReply, sanitizeAction, coerceNum, h]
  · intro q h; simp [decideResult, workerTickReply, sanitizeAction, coerceNum, h]
  · intro h; simp [decideResult, workerTickReply, sanitizeAction, coerceNum, h]
  · intro q h; simp [decideResult, workerTickReply, sanitizeAction, coerceNum, h]
  · intro s h hmem
    simp [decideResult, workerTickReply, sanitizeAction, h,
      parseActionName_of_not_mem s hmem]
  · intro h; simp [decideResult, workerTickReply, sanitizeAction, h]
  · intro a h
    simp only [decideResult, workerTickReply, sanitizeAction] at h
    match hr : r.action with
    | none => rw [hr] at h; exact Option.noConfusion h
    | some s =>
        rw [hr] at h
        exact ⟨s, rfl, mem_of_parseActionName s a h⟩

/-- Witness for C2 at a concrete malformed result. -/
theorem decide_call_sanitizes_witness :
    (decideResult (.reply (some (.returns rawOdd)))).move.x = 0 ∧
    (decideResult (.reply (some (.returns rawOdd)))).move.y = 7 / 2 ∧
    (decideResult (.reply (some (.returns rawOdd)))).action = none := by
  obtain ⟨-, -, -, -, hr⟩ := decide_call_sanitizes
  obtain ⟨hx, -, -, hy, -, -, -, -, hact, -, -⟩ := hr rawOdd
  exact ⟨hx rfl, hy (7 / 2) rfl, hact "explode" rfl (by decide)⟩

/-! Claim C3: hot swap atomicity and reporting. -/

/-- C3: a recompile request always posts a reply; on a validation or
compile failure the worker state (and with it the bound think function)
is exactly the previous one and the reply reports failure, which the
runner maps to false; only on success is the binding replaced, with the
compiled function installed, and the reply reports success. -/
theorem hotswap_atomic {F : Type} (validate : String → Option String)
    (compile : String → Except String F) (env : WorkerEnv F) (code : String) :
    ((handleRecompile validate compile env code).2 = .recompiled ∨
      (handleRecompile validate compile env code).2 = .recompileError) ∧
    (∀ e, validate code = some e →
      handleRecompile validate compile env code = (env, .recompileError)) ∧
    (∀ e, validate code = none → compile code = .error e →
      handleRecompile validate compile env code = (env, .recompileError)) ∧
    (∀ f, validate code = none → compile code = .ok f →
      handleRecompile validate compile env code = (⟨some f⟩, .recompiled)) ∧
    (hotSwapReported (handleRecompile validate compile env code).2 = true ↔
      (handleRecompile validate compile env code).2 = .recompiled) := by
  refine ⟨?_, ?_, ?_, ?_, ?_⟩
  · unfold handleRecompile
    match validate code with
    | some e => exact Or.inr rfl
    | none =>
        match compile code with
        | .error e => exact Or.inr rfl
        | .ok f => exact Or.inl rfl
  · intro e he; simp [handleRecompile, he]
  · intro e hv hc; simp [handleRecompile, hv, hc]
  · intro f hv hc; simp [handleRecompile, hv, hc]
  · match h : (handleRecompile validate compile env code).2 with
    | .recompiled => simp [hotSwapReported]
    | .recompileError => simp [hotSwapReported]

/-- Witness for C3: a failing validation leaves a concrete worker state
intact and reports failure, and a succeeding compile installs the new
function and reports success. -/
theorem hotswap_atomic_witness :
    handleRecompile (fun _ => some "bad") (fun _ => Except.ok ()) (⟨none⟩ : WorkerEnv Unit)
      "x" = (⟨none⟩, .recompileError) ∧
    handleRecompile (fun _ => none) (fun _ => Except.ok ()) (⟨none⟩ : WorkerEnv Unit)
      "x" = (⟨some ()⟩, .recompiled) := by
  constructor
  · exact (hotswap_atomic (fun _ => some "bad") (fun _ => Except.ok ()) ⟨none⟩ "x").2.1
      "bad" rfl
  · exact (hotswap_atomic (fun _ => none) (fun _ => Except.ok ()) ⟨none⟩ "x").2.2.2.1
      () rfl rfl

/-! Claim C7: late decide replies. The source correlates replies with
requests only through the per bot slot of the pending map, so a reply
computed for a timed out request is dropped only when the slot is empty;
when a later request already occupies the slot, the stale reply resolves
that later request. The trace below exhibits it. -/

/-- C7 counterexample: in the concrete trace request 1 times out and is
resolved with the neutral default, then the late reply computed for
request 1 arrives while request 2 is pending and resolves request 2, so
a late response is attributed to a later decide request, against the
claim. -/
theorem late_reply_counterexample :
    (runnerRun lateReplyTrace).resolutions = [⟨1, none⟩, ⟨2, some 1⟩] ∧
    (⟨2, some 1⟩ : Resolution) ∈ (runnerRun lateReplyTrace).resolutions := by
  constructor
  · rfl
  · rw [(by rfl : (runnerRun lateReplyTrace).resolutions = [⟨1, none⟩, ⟨2, some 1⟩])]
    exact List.mem_cons_of_mem _ (List.mem_singleton.mpr rfl)

/-- C7 amended: a worker reply arriving when no resolver is pending is
discarded without any effect, and the timed out request is never the one
a late reply resolves (its resolver is gone); but a reply arriving while
some request is pending resolves exactly that pending request. -/
theorem late_reply_amended (st : RunnerState) (origin : ℕ) :
    (st.pending = none → runnerStep st (.workerReply origin) = st) ∧
    (∀ r, st.pending = some r →
      runnerStep st (.workerReply origin) =
        ⟨none, st.resolutions ++ [⟨r, some origin⟩]⟩) := by
  constructor
  · intro h; simp [runnerStep, h]
  · intro r h; simp [runnerStep, h]

/-- Witness for the amended C7: a reply at the idle map is dropped, and
a reply while request 2 is pending resolves request 2. -/
theorem late_reply_amended_witness :
    runnerStep ⟨none, [⟨1, none⟩]⟩ (.workerReply 1) = ⟨none, [⟨1, none⟩]⟩ ∧
    runnerStep ⟨some 2, [⟨1, none⟩]⟩ (.workerReply 1) =
      ⟨none, [⟨1, none⟩, ⟨2, some 1⟩]⟩ := by
  constructor
  · exact (late_reply_amended ⟨none, [⟨1, none⟩]⟩ 1).1 rfl
  · exact (late_reply_amended ⟨some 2, [⟨1, none⟩]⟩ 1).2 2 rfl

/-! Claim C6: maximum tick termination. -/

/-- A bot with positive hp is untouched by its knockout sweep step. -/
theorem koBot_of_pos (st : GState) (i : ℕ) (h : 0 < (st.getBot i).hp) :
    koBot st i = st := by
  unfold koBot
  simp [not_le.mpr h]

/-- C6: when both bots are above zero hp at the end of a tick that has
reached the maximum tick count and the game is not already over, the
match ends, the winner is the bot with strictly higher hp, and there is
no winner exactly when the two hp values are equal. -/
theorem maxticks_higher_hp_wins (st : GState)
    (h0 : 0 < st.bot0.hp) (h1 : 0 < st.bot1.hp)
    (hid0 : st.bot0.id = 0) (hid1 : st.bot1.id = 1)
    (hg : st.gameOver = false) (ht : MAX_TICKS ≤ st.tick) :
    (resolveOutcome st).gameOver = true ∧
    (resolveOutcome st).winner =
      (if st.bot1.hp < st.bot0.hp then some 0
       else if st.bot0.hp < st.bot1.hp then some 1
       else none) ∧
    ((resolveOutcome st).winner = none ↔ st.bot0.hp = st.bot1.hp) := by
  have hck : checkKO st = st := by
    unfold checkKO
    rw [koBot_of_pos st 0 (by simpa using h0)]
    rw [koBot_of_pos st 1 (by simpa using h1)]
  unfold resolveOutcome
  rw [hck, if_pos ⟨ht, hg⟩]
  refine ⟨rfl, by simp [hid0, hid1], ?_⟩
  simp only [hid0, hid1]
  rcases lt_trichotomy st.bot0.hp st.bot1.hp with h | h | h
  · rw [if_neg (by exact fun hc => absurd (lt_trans h hc) (lt_irrefl _)), if_pos h]
    simp [ne_of_lt h]
  · rw [if_neg (by rw [h]; exact lt_irrefl _), if_neg (by rw [h]; exact lt_irrefl _)]
    simp [h]
  · rw [if_pos h]
    simp [ne_of_gt h]

/-- Witness for C6 at the concrete tie state: equal hp at the maximum
tick yields no winner. -/
theorem maxticks_higher_hp_wins_witness :
    (resolveOutcome tieState).gameOver = true ∧
    (resolveOutcome tieState).winner = none := by
  have h := maxticks_higher_hp_wins tieState (by decide) (by decide) (by decide)
    (by decide) (by decide) (by decide)
  exact ⟨h.1, h.2.2.mpr (by decide)⟩

/-! Claim C1: attack commitment on failed melee and special swings. The
melee handler has both a range check and a facing check and emits a miss
event on either failure; the special handler has no facing check at all
and on a range failure emits no miss event, only its unconditional
special use event. Costs, cooldown, commit and momentum reset land on
every swing in both handlers. -/

/-- C1 counterexample: in the fresh default state the special gates pass
(zero cooldown, ample energy) and the range check fails (the bots are
twenty apart against a range of eight), yet the handler emits only the
special use event and no miss event, against the claim that a failed
range check emits a miss event for special too. -/
theorem special_no_miss_counterexample :
    baseState.bot0.cooldowns.special = 0 ∧
    SPECIAL_ENERGY ≤ baseState.bot0.energy ∧
    distLeB baseState.bot0.position baseState.bot1.position SPECIAL_RANGE = false ∧
    (processSpecial 0 baseState).events =
      [{ etype := .specialUse, attacker := some 0, position := some ⟨-10, 0⟩ }] ∧
    (∀ e ∈ (processSpecial 0 baseState).events, e.etype ≠ EventType.miss) := by
  have hrange : distLeB baseState.bot0.position baseState.bot1.position SPECIAL_RANGE
      = false := by
    norm_num [distLeB, dist2, Vec2.sub, Vec2.norm2, baseState, GState.init, createBot,
      SPECIAL_RANGE]
  have hgate : ¬(baseState.bot0.cooldowns.special > 0 ∨
      baseState.bot0.energy < SPECIAL_ENERGY) := by
    norm_num [baseState, GState.init, createBot, BOT_ENERGY, SPECIAL_ENERGY]
  have hev : (processSpecial 0 baseState).events =
      [{ etype := .specialUse, attacker := some 0, position := some ⟨-10, 0⟩ }] := by
    unfold processSpecial
    rw [getBot_zero, if_neg hgate, if_neg (by simp [hrange])]
    simp [baseState, GState.init, createBot]
  refine ⟨rfl, by norm_num [baseState, GState.init, createBot, BOT_ENERGY, SPECIAL_ENERGY],
    hrange, hev, ?_⟩
  intro e he
  rw [hev, List.mem_singleton] at he
  subst he
  decide

/-- C1 amended: whenever the melee gates pass but the range check or the
facing check fails, the handler still consumes the energy cost, sets the
melee cooldown, sets a positive attack commit, zeroes momentum, and
pushes exactly one miss event; whenever the special gates pass but the
range check fails (special has no facing check), the handler likewise
still consumes the energy cost, sets the special cooldown, sets a
positive attack commit and zeroes momentum, but pushes only its special
use event and no miss event. -/
theorem missed_attack_commits (i : ℕ) (st : GState) :
    ((st.getBot i).cooldowns.melee = 0 → MELEE_ENERGY ≤ (st.getBot i).energy →
      (distGtB (st.getBot i).position (st.getBot (1 - i)).position MELEE_RANGE = true ∨
        meleeFacingMiss (st.getBot i).facing (st.getBot i).position
          (st.getBot (1 - i)).position = true) →
      ((processMelee i st).getBot i).energy = (st.getBot i).energy - MELEE_ENERGY ∧
      ((processMelee i st).getBot i).cooldowns.melee = MELEE_COOLDOWN ∧
      ((processMelee i st).getBot i).status.attackCommit = MELEE_COMMIT_TICKS ∧
      0 < MELEE_COMMIT_TICKS ∧
      ((processMelee i st).getBot i).momentum = 0 ∧
      (processMelee i st).events = st.events ++
        [{ etype := .miss, attacker := some (st.getBot i).id,
           position := some (st.getBot i).position }]) ∧
    ((st.getBot i).cooldowns.special = 0 → SPECIAL_ENERGY ≤ (st.getBot i).energy →
      distLeB (st.getBot i).position (st.getBot (1 - i)).position SPECIAL_RANGE = false →
      ((processSpecial i st).getBot i).energy = (st.getBot i).energy - SPECIAL_ENERGY ∧
      ((processSpecial i st).getBot i).cooldowns.special = SPECIAL_COOLDOWN ∧
      ((processSpecial i st).getBot i).status.attackCommit = SPECIAL_COMMIT_TICKS ∧
      0 < SPECIAL_COMMIT_TICKS ∧
      ((processSpecial i st).getBot i).momentum = 0 ∧
      (processSpecial i st).events = st.events ++
        [{ etype := .specialUse, attacker := some (st.getBot i).id,
           position := some (st.getBot i).position }] ∧
      (∀ e ∈ (processSpecial i st).events, e ∈ st.events ∨ e.etype ≠ EventType.miss)) := by
  constructor
  · intro hcd hen hmiss
    have hgate : ¬((st.getBot i).cooldowns.melee > 0 ∨ (st.getBot i).energy < MELEE_ENERGY) := by
      rw [hcd]; simp [not_lt.mpr hen]
    by_cases hr : distGtB (st.getBot i).position (st.getBot (1 - i)).position MELEE_RANGE = true
    · unfold processMelee
      rw [if_neg hgate, if_pos hr]
      exact ⟨by simp, by simp, by simp, by decide, by simp, by simp⟩
    · have hf : meleeFacingMiss (st.getBot i).facing (st.getBot i).position
          (st.getBot (1 - i)).position = true := by
        rcases hmiss with h | h
        · exact absurd h hr
        · exact h
      unfold processMelee
      rw [if_neg hgate, if_neg hr, if_pos hf]
      exact ⟨by simp, by simp, by simp, by decide, by simp, by simp⟩
  · intro hcd hen hr
    have hgate : ¬((st.getBot i).cooldowns.special > 0 ∨ (st.getBot i).energy < SPECIAL_ENERGY) := by
      rw [hcd]; simp [not_lt.mpr hen]
    unfold processSpecial
    rw [if_neg hgate]
    rw [if_neg (by simp [hr])]
    refine ⟨by simp, by simp, by simp, by decide, by simp, by simp, ?_⟩
    intro e he
    simp only [pushEvent_events, setBot_events, List.mem_append] at he
    rcases he with h | h
    · exact Or.inl h
    · rw [List.mem_singleton] at h
      subst h
      exact Or.inr (by simp)

/-- Witness for the amended C1 at the fresh default state, where both
swings fail their range checks. -/
theorem missed_attack_commits_witness :
    ((processMelee 0 baseState).getBot 0).energy = 100 - MELEE_ENERGY ∧
    ((processMelee 0 baseState).getBot 0).status.attackCommit = MELEE_COMMIT_TICKS ∧
    ((processSpecial 0 baseState).getBot 0).energy = 100 - SPECIAL_ENERGY ∧
    ((processSpecial 0 baseState).getBot 0).status.attackCommit = SPECIAL_COMMIT_TICKS := by
  have h := missed_attack_commits 0 baseState
  have hen1 : MELEE_ENERGY ≤ (baseState.getBot 0).energy := by
    norm_num [baseState, GState.init, createBot, BOT_ENERGY, MELEE_ENERGY]
  have hrg1 : distGtB (baseState.getBot 0).position (baseState.getBot (1 - 0)).position
      MELEE_RANGE = true := by
    norm_num [distGtB, dist2, Vec2.sub, Vec2.norm2, baseState, GState.init, createBot,
      MELEE_RANGE]
  have hen2 : SPECIAL_ENERGY ≤ (baseState.getBot 0).energy := by
    norm_num [baseState, GState.init, createBot, BOT_ENERGY, SPECIAL_ENERGY]
  have hrg2 : distLeB (baseState.getBot 0).position (baseState.getBot (1 - 0)).position
      SPECIAL_RANGE = false := by
    norm_num [distLeB, dist2, Vec2.sub, Vec2.norm2, baseState, GState.init, createBot,
      SPECIAL_RANGE]
  have hm := h.1 rfl hen1 (Or.inl hrg1)
  have hs := h.2 rfl hen2 hrg2
  have he : (baseState.getBot 0).energy = 100 := rfl
  rw [he] at hm hs
  exact ⟨hm.1, hm.2.2.1, hs.1, hs.2.2.1⟩

/-! Claim C4: determinism. The tick pipeline consumes ambient
Math.random draws in trySpawnPickup (pickup kind and position), so two
runs with identical arena config and identical decision sequences can
still diverge when the ambient draws differ: the embedding makes the
draw stream an explicit input, and the two concrete streams below
produce different event sequences from the same config and decisions. -/

set_option maxHeartbeats 4000000 in
set_option maxRecDepth 8000 in
/-- C4 counterexample: same arena config, same (all neutral) decision
sequences, but two ambient random streams; the first spawns a pickup at
bot 0 which is collected the same tick (a pickup event), the second
spawns it at the arena center (no event). The two runs yield different
event sequences, refuting determinism from config and decisions alone. -/
theorem determinism_counterexample :
    (runMatch (some flatArena) decNeutral rhoHit 1).1.events =
      [{ etype := .pickup, target := some 0, position := some ⟨-12, 0⟩ }] ∧
    (runMatch (some flatArena) decNeutral rhoCenter 1).1.events = [] ∧
    (runMatch (some flatArena) decNeutral rhoHit 1).1.events ≠
      (runMatch (some flatArena) decNeutral rhoCenter 1).1.events := by
  have h1 : (runMatch (some flatArena) decNeutral rhoHit 1).1.events =
      [{ etype := .pickup, target := some 0, position := some ⟨-12, 0⟩ }] := by
    norm_num [runMatch, tickStep, tickPre, tickPost, GState.init, createBot, applyBotAction, applyMovement,
      applyFacing, processAction, upkeep, GState.getBot, GState.setBot, GState.pushEvent,
      GState.clearEvents, sampleSlope2, sampleTerrainHeight, clampToBounds,
      resolveObstacleCollision, resolveBotCollision, updateVisibility, GState.obstaclesOf,
      hasLineOfSight, isInFieldOfView, lineSegmentIntersectsCircle, sightEvents,
      updateProjectiles, processProjectileHits, trySpawnPickup, checkPickups, collectPickup,
      checkTraps, trapHitBot, koBot, checkKO, resolveOutcome, decNeutral, rhoHit,
      flatArena, neutralAction, dist2, Vec2.sub, Vec2.norm2, Vec2.dot, distLtB, distGtB,
      distLeB, meleeFacingMiss, ratSqrt, ARENA_SIZE, ARENA_HALF, BOT_RADIUS, BOT_SPEED,
      PICKUP_INTERVAL, MAX_PICKUPS, PICKUP_RADIUS, TRAP_RADIUS, TRAP_LIFETIME, MAX_TICKS,
      HALF_FOV_COS, MOMENTUM_DECAY, TERRAIN_SLOPE_MAX, ENERGY_REGEN, OOC_REGEN_DELAY,
      BOT_HP, OOC_REGEN_RATE, BOT_ENERGY, ENERGY_PICKUP_AMOUNT, HEALTH_PICKUP_AMOUNT,
      activeTrapCount, min_def, max_def]
  have h2 : (runMatch (some flatArena) decNeutral rhoCenter 1).1.events = [] := by
    norm_num [runMatch, tickStep, tickPre, tickPost, GState.init, createBot, applyBotAction, applyMovement,
      applyFacing, processAction, upkeep, GState.getBot, GState.setBot, GState.pushEvent,
      GState.clearEvents, sampleSlope2, sampleTerrainHeight, clampToBounds,
      resolveObstacleCollision, resolveBotCollision, updateVisibility, GState.obstaclesOf,
      hasLineOfSight, isInFieldOfView, lineSegmentIntersectsCircle, sightEvents,
      updateProjectiles, processProjectileHits, trySpawnPickup, checkPickups, collectPickup,
      checkTraps, trapHitBot, koBot, checkKO, resolveOutcome, decNeutral, rhoCenter,
      flatArena, neutralAction, dist2, Vec2.sub, Vec2.norm2, Vec2.dot, distLtB, distGtB,
      distLeB, meleeFacingMiss, ratSqrt, ARENA_SIZE, ARENA_HALF, BOT_RADIUS, BOT_SPEED,
      PICKUP_INTERVAL, MAX_PICKUPS, PICKUP_RADIUS, TRAP_RADIUS, TRAP_LIFETIME, MAX_TICKS,
      HALF_FOV_COS, MOMENTUM_DECAY, TERRAIN_SLOPE_MAX, ENERGY_REGEN, OOC_REGEN_DELAY,
      BOT_HP, OOC_REGEN_RATE, BOT_ENERGY, ENERGY_PICKUP_AMOUNT, HEALTH_PICKUP_AMOUNT,
      activeTrapCount, min_def, max_def]
  refine ⟨h1, h2, ?_⟩
  rw [h1, h2]
  simp

/-- C4 amended: the simulation is deterministic once the ambient pickup
randomness is part of the input: runs with identical configuration,
identical decision sequences and identical random draw streams are
identical in full (states, hence event sequences and final hp). -/
theorem determinism_modulo_rng (cfg : Option ArenaConfig)
    (dec : ℕ → BotAction × BotAction) (ρ1 ρ2 : ℕ → ℚ) (n : ℕ) (h : ρ1 = ρ2) :
    runMatch cfg dec ρ1 n = runMatch cfg dec ρ2 n := by
  rw [h]

/-- Witness for the amended C4 at a concrete run. -/
theorem determinism_modulo_rng_witness :
    runMatch (some flatArena) decNeutral rhoCenter 1 =
      runMatch (some flatArena) decNeutral rhoCenter 1 :=
  determinism_modulo_rng (some flatArena) decNeutral rhoCenter rhoCenter 1 rfl

/-! Claim C8 infrastructure: every pipeline stage other than the sight
diff emits no sight events and leaves the visibility flags, the last
known position caches and (after the physics stage) the bot positions
untouched. -/

/-- Generic invariant preservation along a left fold. -/
theorem foldl_inv {α β : Type _} {P : β → Prop} (f : β → α → β) (l : List α) (b : β)
    (hb : P b) (hf : ∀ b a, P b → P (f b a)) : P (l.foldl f b) := by
  induction l generalizing b with
  | nil => exact hb
  | cons x xs ih => exact ih (f b x) (hf b x hb)

theorem sightCount_append (l1 l2 : List GameEvent) (t : EventType) (j : ℕ) :
    sightCount (l1 ++ l2) t j = sightCount l1 t j + sightCount l2 t j := by
  simp [sightCount, List.filter_append]

@[simp]
theorem addProjectile_events (st : GState) (o : ℕ) (p v : Vec2) (d : ℚ) :
    (st.addProjectile o p v d).events = st.events := rfl

@[simp]
theorem addProjectile_getBot (st : GState) (o : ℕ) (p v : Vec2) (d : ℚ) (i : ℕ) :
    (st.addProjectile o p v d).getBot i = st.getBot i := by
  unfold GState.getBot GState.addProjectile; split <;> rfl

@[simp]
theorem addProjectile_visible0 (st : GState) (o : ℕ) (p v : Vec2) (d : ℚ) :
    (st.addProjectile o p v d).visible0 = st.visible0 := rfl

@[simp]
theorem addProjectile_visible1 (st : GState) (o : ℕ) (p v : Vec2) (d : ℚ) :
    (st.addProjectile o p v d).visible1 = st.visible1 := rfl

@[simp]
theorem addProjectile_lastKnown0 (st : GState) (o : ℕ) (p v : Vec2) (d : ℚ) :
    (st.addProjectile o p v d).lastKnown0 = st.lastKnown0 := rfl

@[simp]
theorem addProjectile_lastKnown1 (st : GState) (o : ℕ) (p v : Vec2) (d : ℚ) :
    (st.addProjectile o p v d).lastKnown1 = st.lastKnown1 := rfl

@[simp]
theorem addTrap_events (st : GState) (o : ℕ) (p : Vec2) :
    (st.addTrap o p).events = st.events := rfl

@[simp]
theorem addTrap_visible0 (st : GState) (o : ℕ) (p : Vec2) :
    (st.addTrap o p).visible0 = st.visible0 := rfl

@[simp]
theorem addTrap_visible1 (st : GState) (o : ℕ) (p : Vec2) :
    (st.addTrap o p).visible1 = st.visible1 := rfl

@[simp]
theorem addTrap_lastKnown0 (st : GState) (o : ℕ) (p : Vec2) :
    (st.addTrap o p).lastKnown0 = st.lastKnown0 := rfl

@[simp]
theorem addTrap_lastKnown1 (st : GState) (o : ℕ) (p : Vec2) :
    (st.addTrap o p).lastKnown1 = st.lastKnown1 := rfl

theorem sightEventsFrame_refl (s : GState) : SightEventsFrame s s :=
  ⟨fun _ _ _ => rfl, rfl, rfl, rfl, rfl⟩

theorem sightEventsFrame_trans {a b c : GState}
    (h1 : SightEventsFrame a b) (h2 : SightEventsFrame b c) : SightEventsFrame a c :=
  ⟨fun t j ht => (h2.1 t j ht).trans (h1.1 t j ht),
   h2.2.1.trans h1.2.1, h2.2.2.1.trans h1.2.2.1,
   h2.2.2.2.1.trans h1.2.2.2.1, h2.2.2.2.2.trans h1.2.2.2.2⟩

theorem sightFrame_refl (s : GState) : SightFrame s s :=
  ⟨sightEventsFrame_refl s, rfl, rfl⟩

theorem sightFrame_trans {a b c : GState}
    (h1 : SightFrame a b) (h2 : SightFrame b c) : SightFrame a c :=
  ⟨sightEventsFrame_trans h1.1 h2.1, h2.2.1.trans h1.2.1, h2.2.2.trans h1.2.2⟩

/-- A state extended by one event of a non sight tag is in the event
frame. -/
theorem sightEventsFrame_pushEvent (s : GState) (e : GameEvent)
    (he : e.etype ≠ EventType.lostSight ∧ e.etype ≠ EventType.gainedSight) :
    SightEventsFrame s (s.pushEvent e) := by
  refine ⟨fun t j ht => ?_, rfl, rfl, rfl, rfl⟩
  rw [pushEvent_events, sightCount_append]
  have : sightCount [e] t j = 0 := by
    rcases ht with rfl | rfl <;> simp [sightCount, List.filter, he.1, he.2]
  rw [this, Nat.add_zero]

theorem sightEventsFrame_setBot (s : GState) (i : ℕ) (b : Bot) :
    SightEventsFrame s (s.setBot i b) := by
  refine ⟨fun t j ht => ?_, by simp, by simp, by simp, by simp⟩
  rw [setBot_events]

theorem sightEventsFrame_upkeep (i : ℕ) (s : GState) :
    SightEventsFrame s (upkeep i s) := by
  unfold upkeep
  by_cases hb : 0 < ((s.getBot i).status.burning)
  · simp only [hb, if_true, gt_iff_lt]
    refine sightEventsFrame_trans (b := (s.setBot i _).pushEvent _) ?_
      (sightEventsFrame_setBot _ i _)
    exact sightEventsFrame_trans (sightEventsFrame_setBot s i _)
      (sightEventsFrame_pushEvent _ _ (by simp))
  · simp only [gt_iff_lt, hb, if_false]
    exact sightEventsFrame_trans (sightEventsFrame_setBot s i _)
      (sightEventsFrame_setBot _ i _)

theorem sightEventsFrame_addProjectile (s : GState) (o : ℕ) (p v : Vec2) (d : ℚ) :
    SightEventsFrame s (s.addProjectile o p v d) :=
  ⟨fun t j _ => by rw [addProjectile_events], by simp, by simp, by simp, by simp⟩

theorem sightEventsFrame_addTrap (s : GState) (o : ℕ) (p : Vec2) :
    SightEventsFrame s (s.addTrap o p) :=
  ⟨fun t j _ => by rw [addTrap_events], by simp, by simp, by simp, by simp⟩

theorem sightEventsFrame_processMelee (i : ℕ) (s : GState) :
    SightEventsFrame s (processMelee i s) := by
  unfold processMelee
  dsimp only
  split
  · exact sightEventsFrame_refl s
  · split
    · exact sightEventsFrame_trans (sightEventsFrame_setBot s i _)
        (sightEventsFrame_pushEvent _ _ (by simp))
    · split
      · exact sightEventsFrame_trans (sightEventsFrame_setBot s i _)
          (sightEventsFrame_pushEvent _ _ (by simp))
      · exact sightEventsFrame_trans
          (sightEventsFrame_trans (sightEventsFrame_setBot s i _)
            (sightEventsFrame_setBot _ (1 - i) _))
          (sightEventsFrame_pushEvent _ _ (by simp))

theorem sightEventsFrame_processRanged (i : ℕ) (s : GState) :
    SightEventsFrame s (processRanged i s) := by
  unfold processRanged
  dsimp only
  split
  · exact sightEventsFrame_refl s
  · exact sightEventsFrame_trans
      (sightEventsFrame_trans (sightEventsFrame_setBot s i _)
        (sightEventsFrame_addProjectile _ _ _ _ _))
      (sightEventsFrame_pushEvent _ _ (by simp))

theorem sightEventsFrame_processSpecial (i : ℕ) (s : GState) :
    SightEventsFrame s (processSpecial i s) := by
  unfold processSpecial
  dsimp only
  split
  · exact sightEventsFrame_refl s
  · split
    · exact sightEventsFrame_trans
        (sightEventsFrame_trans
          (sightEventsFrame_trans
            (sightEventsFrame_trans (sightEventsFrame_setBot s i _)
              (sightEventsFrame_pushEvent _ _ (by simp)))
            (sightEventsFrame_setBot _ i _))
          (sightEventsFrame_setBot _ (1 - i) _))
        (sightEventsFrame_pushEvent _ _ (by simp))
    · exact sightEventsFrame_trans (sightEventsFrame_setBot s i _)
        (sightEventsFrame_pushEvent _ _ (by simp))

theorem sightEventsFrame_processDefend (i : ℕ) (s : GState) :
    SightEventsFrame s (processDefend i s) := by
  unfold processDefend
  dsimp only
  split
  · exact sightEventsFrame_refl s
  · exact sightEventsFrame_setBot s i _

theorem sightEventsFrame_processDash (i : ℕ) (s : GState) :
    SightEventsFrame s (processDash i s) := by
  unfold processDash
  dsimp only
  split
  · exact sightEventsFrame_refl s
  · exact sightEventsFrame_trans (sightEventsFrame_setBot s i _)
      (sightEventsFrame_pushEvent _ _ (by simp))

theorem sightEventsFrame_processHeal (i : ℕ) (s : GState) :
    SightEventsFrame s (processHeal i s) := by
  unfold processHeal
  dsimp only
  split
  · exact sightEventsFrame_refl s
  · exact sightEventsFrame_trans (sightEventsFrame_setBot s i _)
      (sightEventsFrame_pushEvent _ _ (by simp))

theorem sightEventsFrame_processTrap (i : ℕ) (s : GState) :
    SightEventsFrame s (processTrap i s) := by
  unfold processTrap
  dsimp only
  split
  · exact sightEventsFrame_refl s
  · split
    · exact sightEventsFrame_refl s
    · exact sightEventsFrame_trans
        (sightEventsFrame_trans (sightEventsFrame_setBot s i _)
          (sightEventsFrame_addTrap _ _ _))
        (sightEventsFrame_pushEvent _ _ (by simp))

theorem sightEventsFrame_processAction (i : ℕ) (act : Option ActionKind) (s : GState) :
    SightEventsFrame s (processAction i act s) := by
  unfold processAction
  cases act with
  | none => dsimp only; exact sightEventsFrame_upkeep i s
  | some k =>
      cases k <;> dsimp only <;>
        first
        | exact sightEventsFrame_trans (sightEventsFrame_upkeep i s)
            (sightEventsFrame_processMelee i _)
        | exact sightEventsFrame_trans (sightEventsFrame_upkeep i s)
            (sightEventsFrame_processRanged i _)
        | exact sightEventsFrame_trans (sightEventsFrame_upkeep i s)
            (sightEventsFrame_processSpecial i _)
        | exact sightEventsFrame_trans (sightEventsFrame_upkeep i s)
            (sightEventsFrame_processDefend i _)
        | exact sightEventsFrame_trans (sightEventsFrame_upkeep i s)
            (sightEventsFrame_processDash i _)
        | exact sightEventsFrame_trans (sightEventsFrame_upkeep i s)
            (sightEventsFrame_processHeal i _)
        | exact sightEventsFrame_trans (sightEventsFrame_upkeep i s)
            (sightEventsFrame_processTrap i _)

theorem sightEventsFrame_applyBotAction (i : ℕ) (a : BotAction) (s : GState) :
    SightEventsFrame s (applyBotAction i a s) := by
  unfold applyBotAction
  exact sightEventsFrame_trans
    (sightEventsFrame_trans (sightEventsFrame_setBot s i _)
      (sightEventsFrame_setBot _ i _))
    (sightEventsFrame_processAction i _ _)

theorem sightFrame_setBot_pos (s : GState) (i : ℕ) (b : Bot)
    (hp : b.position = (s.getBot i).position) : SightFrame s (s.setBot i b) := by
  refine ⟨sightEventsFrame_setBot s i b, ?_, ?_⟩
  · by_cases hi : i = 0
    · subst hi; simpa using hp
    · simp [setBot_bot0, hi]
  · by_cases hi : i = 0
    · simp [setBot_bot1, hi]
    · simp only [setBot_bot1, hi, if_false]
      rw [hp]
      simp [GState.getBot, hi]

theorem sightFrame_pushEvent (s : GState) (e : GameEvent)
    (he : e.etype ≠ EventType.lostSight ∧ e.etype ≠ EventType.gainedSight) :
    SightFrame s (s.pushEvent e) :=
  ⟨sightEventsFrame_pushEvent s e he, rfl, rfl⟩

theorem sightFrame_applyProjectileHit (s : GState) (proj : Projectile) (ti : ℕ) :
    SightFrame s (applyProjectileHit s proj ti) := by
  unfold applyProjectileHit
  dsimp only
  split
  · refine sightFrame_trans
      (sightFrame_trans (sightFrame_setBot_pos s ti _ ?_)
        (sightFrame_setBot_pos _ _ _ ?_))
      (sightFrame_pushEvent _ _ (by simp)) <;> rfl
  · refine sightFrame_trans (sightFrame_setBot_pos s ti _ ?_)
      (sightFrame_pushEvent _ _ (by simp))
    rfl

theorem sightFrame_processProjectileHits (s : GState) :
    SightFrame s (processProjectileHits s) := by
  unfold processProjectileHits
  dsimp only
  have h : SightFrame s (s.projectiles.foldl
      (fun (acc : List Projectile × GState) (proj : Projectile) =>
        match projHitTarget acc.2 proj with
        | some ti => (acc.1, applyProjectileHit acc.2 proj ti)
        | none => (acc.1 ++ [proj], acc.2))
      ([], s)).2 := by
    refine foldl_inv (P := fun (acc : List Projectile × GState) => SightFrame s acc.2)
      _ _ _ (sightFrame_refl s) ?_
    intro b a hP
    dsimp only
    split
    · exact sightFrame_trans hP (sightFrame_applyProjectileHit b.2 a _)
    · exact hP
  exact h

theorem sightFrame_collectPickup (acc : GState × Pickup) (i : ℕ) :
    SightFrame acc.1 (collectPickup acc i).1 := by
  unfold collectPickup
  dsimp only
  split
  · exact sightFrame_trans
      (sightFrame_setBot_pos acc.1 i _ (by split <;> rfl))
      (sightFrame_pushEvent _ _ (by simp))
  · exact sightFrame_refl _

theorem sightFrame_checkPickups (s : GState) :
    SightFrame s (checkPickups s) := by
  unfold checkPickups
  dsimp only
  have h : SightFrame s (s.pickups.foldl
      (fun (acc : GState × List Pickup) (p : Pickup) =>
        if !p.active then (acc.1, acc.2 ++ [p])
        else
          let out := collectPickup (collectPickup (acc.1, p) 0) 1
          (out.1, acc.2 ++ [out.2]))
      (s, [])).1 := by
    refine foldl_inv (P := fun (acc : GState × List Pickup) => SightFrame s acc.1)
      _ _ _ (sightFrame_refl s) ?_
    intro b a hP
    dsimp only
    split
    · exact hP
    · exact sightFrame_trans hP
        (sightFrame_trans (sightFrame_collectPickup (b.1, a) 0)
          (sightFrame_collectPickup _ 1))
  exact h

theorem sightFrame_trapHitBot (acc : GState × Trap) (i : ℕ) :
    SightFrame acc.1 (trapHitBot acc i).1 := by
  unfold trapHitBot
  dsimp only
  split
  · exact sightFrame_refl _
  · split
    · split
      · refine sightFrame_trans
          (sightFrame_trans (sightFrame_setBot_pos acc.1 i _ ?_)
            (sightFrame_setBot_pos _ _ _ ?_))
          (sightFrame_pushEvent _ _ (by simp)) <;> rfl
      · refine sightFrame_trans (sightFrame_setBot_pos acc.1 i _ ?_)
          (sightFrame_pushEvent _ _ (by simp))
        rfl
    · exact sightFrame_refl _

theorem sightFrame_checkTraps (s : GState) :
    SightFrame s (checkTraps s) := by
  unfold checkTraps
  dsimp only
  have h : SightFrame s (s.traps.foldl
      (fun (acc : GState × List Trap) (t : Trap) =>
        if !t.active then (acc.1, acc.2 ++ [t])
        else
          let t := { t with lifetime := t.lifetime + 1 }
          let out := trapHitBot (trapHitBot (acc.1, t) 0) 1
          (out.1, acc.2 ++ [out.2]))
      (s, [])).1 := by
    refine foldl_inv (P := fun (acc : GState × List Trap) => SightFrame s acc.1)
      _ _ _ (sightFrame_refl s) ?_
    intro b a hP
    dsimp only
    split
    · exact hP
    · exact sightFrame_trans hP
        (sightFrame_trans (sightFrame_trapHitBot (b.1, _) 0)
          (sightFrame_trapHitBot _ 1))
  exact h

theorem sightFrame_koBot (s : GState) (i : ℕ) : SightFrame s (koBot s i) := by
  unfold koBot
  dsimp only
  split
  · refine sightFrame_trans (sightFrame_setBot_pos s i _ ?_)
      (sightFrame_pushEvent _ _ (by simp))
    rfl
  · exact sightFrame_refl s

theorem sightFrame_checkKO (s : GState) : SightFrame s (checkKO s) := by
  unfold checkKO
  exact sightFrame_trans (sightFrame_koBot s 0) (sightFrame_koBot _ 1)

theorem sightFrame_resolveOutcome (s : GState) : SightFrame s (resolveOutcome s) := by
  unfold resolveOutcome
  dsimp only
  split
  · exact sightFrame_checkKO s
  · exact sightFrame_checkKO s

theorem sightFrame_trySpawnPickup (ρ : ℕ → ℚ) (k : ℕ) (s : GState) :
    SightFrame s (trySpawnPickup ρ k s).1 := by
  unfold trySpawnPickup
  dsimp only
  split
  · exact sightFrame_refl s
  · split
    · exact sightFrame_refl s
    · split
      · exact sightFrame_refl s
      · exact sightFrame_refl _

theorem sightFrame_setProjectiles (s : GState) (ps : List Projectile) :
    SightFrame s { s with projectiles := ps } :=
  ⟨⟨fun _ _ _ => rfl, rfl, rfl, rfl, rfl⟩, rfl, rfl⟩

theorem sightFrame_setTraps (s : GState) (ts : List Trap) :
    SightFrame s { s with traps := ts } :=
  ⟨⟨fun _ _ _ => rfl, rfl, rfl, rfl, rfl⟩, rfl, rfl⟩

theorem sightFrame_tickPost (ρ : ℕ → ℚ) (k : ℕ) (s : GState) :
    SightFrame s (tickPost ρ k s).1 := by
  unfold tickPost
  dsimp only
  exact sightFrame_trans
    (sightFrame_trans
      (sightFrame_trans
        (sightFrame_trans
          (sightFrame_trans
            (sightFrame_trans (sightFrame_setProjectiles s _)
              (sightFrame_processProjectileHits _))
            (sightFrame_trySpawnPickup ρ k _))
          (sightFrame_checkPickups _))
        (sightFrame_checkTraps _))
      (sightFrame_setTraps _ _))
    (sightFrame_resolveOutcome _)

/-- The tick head emits no sight events (its events start from the tick
event clear) and leaves the visibility flags and caches untouched. -/
theorem tickPre_sight (a0 a1 : BotAction) (st : GState) :
    (∀ t j, (t = EventType.lostSight ∨ t = EventType.gainedSight) →
      sightCount (tickPre a0 a1 st).events t j = 0) ∧
    (tickPre a0 a1 st).visible0 = st.visible0 ∧
    (tickPre a0 a1 st).visible1 = st.visible1 ∧
    (tickPre a0 a1 st).lastKnown0 = st.lastKnown0 ∧
    (tickPre a0 a1 st).lastKnown1 = st.lastKnown1 := by
  have hframe : SightEventsFrame { st.clearEvents with tick := st.clearEvents.tick + 1 }
      (tickPre a0 a1 st) := by
    unfold tickPre
    dsimp only
    exact sightEventsFrame_trans
      (sightEventsFrame_trans
        (sightEventsFrame_trans
          (sightEventsFrame_trans
            (sightEventsFrame_trans (sightEventsFrame_applyBotAction 0 a0 _)
              (sightEventsFrame_applyBotAction 1 a1 _))
            (sightEventsFrame_setBot _ 0 _))
          (sightEventsFrame_setBot _ 1 _))
        (sightEventsFrame_setBot _ 0 _))
      (sightEventsFrame_setBot _ 1 _)
  obtain ⟨he, hv0, hv1, hk0, hk1⟩ := hframe
  refine ⟨fun t j ht => ?_, hv0, hv1, hk0, hk1⟩
  rw [he t j ht]
  rcases ht with rfl | rfl <;> rfl

/-- What updateVisibility does: events and bots untouched, and the last
known caches refreshed exactly when the new sight value is true. -/
theorem updateVisibility_spec (s : GState) :
    (updateVisibility s).events = s.events ∧
    (updateVisibility s).bot0 = s.bot0 ∧
    (updateVisibility s).bot1 = s.bot1 ∧
    ((updateVisibility s).visible0 = true →
      (updateVisibility s).lastKnown0 = s.bot1.position) ∧
    ((updateVisibility s).visible0 = false →
      (updateVisibility s).lastKnown0 = s.lastKnown0) ∧
    ((updateVisibility s).visible1 = true →
      (updateVisibility s).lastKnown1 = s.bot0.position) ∧
    ((updateVisibility s).visible1 = false →
      (updateVisibility s).lastKnown1 = s.lastKnown1) := by
  unfold updateVisibility
  dsimp only
  cases hc0 : hasLineOfSight s.bot0.position s.bot1.position
      (GState.obstaclesOf s.arenaConfig) &&
      isInFieldOfView s.bot0.facing s.bot0.position s.bot1.position <;>
    cases hc1 : hasLineOfSight s.bot1.position s.bot0.position
        (GState.obstaclesOf s.arenaConfig) &&
        isInFieldOfView s.bot1.facing s.bot1.position s.bot0.position <;>
      simp [hc0, hc1]

/-- What the sight diff emits: per agent, one lost sight event exactly on
a true to false flip and one gained sight event exactly on a false to
true flip, nothing else, and no other state change. -/
theorem sightEvents_spec (p0 p1 : Bool) (s : GState) :
    sightCount (sightEvents p0 p1 s).events EventType.lostSight 0 =
      sightCount s.events EventType.lostSight 0 +
        (if p0 = true ∧ s.visible0 = false then 1 else 0) ∧
    sightCount (sightEvents p0 p1 s).events EventType.gainedSight 0 =
      sightCount s.events EventType.gainedSight 0 +
        (if p0 = false ∧ s.visible0 = true then 1 else 0) ∧
    sightCount (sightEvents p0 p1 s).events EventType.lostSight 1 =
      sightCount s.events EventType.lostSight 1 +
        (if p1 = true ∧ s.visible1 = false then 1 else 0) ∧
    sightCount (sightEvents p0 p1 s).events EventType.gainedSight 1 =
      sightCount s.events EventType.gainedSight 1 +
        (if p1 = false ∧ s.visible1 = true then 1 else 0) ∧
    (sightEvents p0 p1 s).visible0 = s.visible0 ∧
    (sightEvents p0 p1 s).visible1 = s.visible1 ∧
    (sightEvents p0 p1 s).lastKnown0 = s.lastKnown0 ∧
    (sightEvents p0 p1 s).lastKnown1 = s.lastKnown1 ∧
    (sightEvents p0 p1 s).bot0 = s.bot0 ∧
    (sightEvents p0 p1 s).bot1 = s.bot1 := by
  unfold sightEvents
  cases p0 <;> cases hv0 : s.visible0 <;> cases p1 <;> cases hv1 : s.visible1 <;>
    simp [hv0, hv1, sightCount, List.filter_append]

/-- C8: over the whole tick, for each agent exactly one lost sight event
is emitted when its canSee value flips from true to false relative to
the previous tick, exactly one gained sight event on a false to true
flip, and zero sight transition events otherwise (no other pipeline
stage emits them); and the last known position cache is refreshed to the
live enemy position exactly when the agent currently sees the enemy,
remaining the stale previous value otherwise. -/
theorem sight_transitions_per_tick (ρ : ℕ → ℚ) (a0 a1 : BotAction) (st : GState) (k : ℕ) :
    sightCount (tickStep ρ a0 a1 st k).1.events EventType.lostSight 0 =
      (if st.visible0 = true ∧ (tickStep ρ a0 a1 st k).1.visible0 = false then 1 else 0) ∧
    sightCount (tickStep ρ a0 a1 st k).1.events EventType.gainedSight 0 =
      (if st.visible0 = false ∧ (tickStep ρ a0 a1 st k).1.visible0 = true then 1 else 0) ∧
    sightCount (tickStep ρ a0 a1 st k).1.events EventType.lostSight 1 =
      (if st.visible1 = true ∧ (tickStep ρ a0 a1 st k).1.visible1 = false then 1 else 0) ∧
    sightCount (tickStep ρ a0 a1 st k).1.events EventType.gainedSight 1 =
      (if st.visible1 = false ∧ (tickStep ρ a0 a1 st k).1.visible1 = true then 1 else 0) ∧
    ((tickStep ρ a0 a1 st k).1.visible0 = true →
      (tickStep ρ a0 a1 st k).1.lastKnown0 = (tickStep ρ a0 a1 st k).1.bot1.position) ∧
    ((tickStep ρ a0 a1 st k).1.visible0 = false →
      (tickStep ρ a0 a1 st k).1.lastKnown0 = st.lastKnown0) ∧
    ((tickStep ρ a0 a1 st k).1.visible1 = true →
      (tickStep ρ a0 a1 st k).1.lastKnown1 = (tickStep ρ a0 a1 st k).1.bot0.position) ∧
    ((tickStep ρ a0 a1 st k).1.visible1 = false →
      (tickStep ρ a0 a1 st k).1.lastKnown1 = st.lastKnown1) := by
  unfold tickStep
  dsimp only
  set P := tickPre a0 a1 st with hP
  set V := updateVisibility P with hV
  set S := sightEvents P.visible0 P.visible1 V with hS
  obtain ⟨hpreCnt, hpreV0, hpreV1, hpreK0, hpreK1⟩ := tickPre_sight a0 a1 st
  obtain ⟨huvE, huvB0, huvB1, huvKT0, huvKF0, huvKT1, huvKF1⟩ := updateVisibility_spec P
  obtain ⟨hseL0, hseG0, hseL1, hseG1, hseV0, hseV1, hseK0, hseK1, hseB0, hseB1⟩ :=
    sightEvents_spec P.visible0 P.visible1 V
  obtain ⟨⟨hpoCnt, hpoV0, hpoV1, hpoK0, hpoK1⟩, hpoB0, hpoB1⟩ := sightFrame_tickPost ρ k S
  have hVcnt : ∀ t j, sightCount V.events t j = sightCount P.events t j := by
    intro t j; rw [huvE]
  have hFv0 : (tickPost ρ k S).1.visible0 = V.visible0 := by rw [hpoV0, hseV0]
  have hFv1 : (tickPost ρ k S).1.visible1 = V.visible1 := by rw [hpoV1, hseV1]
  refine ⟨?_, ?_, ?_, ?_, ?_, ?_, ?_, ?_⟩
  · rw [hpoCnt _ _ (Or.inl rfl), hseL0, hVcnt,
      hpreCnt _ 0 (Or.inl rfl), Nat.zero_add, hpreV0, ← hFv0]
  · rw [hpoCnt _ _ (Or.inr rfl), hseG0, hVcnt,
      hpreCnt _ 0 (Or.inr rfl), Nat.zero_add, hpreV0, ← hFv0]
  · rw [hpoCnt _ _ (Or.inl rfl), hseL1, hVcnt,
      hpreCnt _ 1 (Or.inl rfl), Nat.zero_add, hpreV1, ← hFv1]
  · rw [hpoCnt _ _ (Or.inr rfl), hseG1, hVcnt,
      hpreCnt _ 1 (Or.inr rfl), Nat.zero_add, hpreV1, ← hFv1]
  · intro h
    rw [hpoK0, hseK0, huvKT0 (by rw [← hFv0]; exact h), hpoB1, hseB1, huvB1]
  · intro h
    rw [hpoK0, hseK0, huvKF0 (by rw [← hFv0]; exact h), hpreK0]
  · intro h
    rw [hpoK1, hseK1, huvKT1 (by rw [← hFv1]; exact h), hpoB0, hseB0, huvB0]
  · intro h
    rw [hpoK1, hseK1, huvKF1 (by rw [← hFv1]; exact h), hpreK1]

set_option maxHeartbeats 4000000 in
set_option maxRecDepth 8000 in
/-- Witness for C8 at a concrete tick: both bots stay in sight, so no
transition event is emitted and the cache tracks the live enemy
position. -/
theorem sight_transitions_witness :
    (tickStep rhoCenter neutralAction neutralAction
      (GState.init (some flatArena)) 0).1.visible0 = true ∧
    (tickStep rhoCenter neutralAction neutralAction
      (GState.init (some flatArena)) 0).1.lastKnown0 =
      (tickStep rhoCenter neutralAction neutralAction
        (GState.init (some flatArena)) 0).1.bot1.position ∧
    sightCount (tickStep rhoCenter neutralAction neutralAction
      (GState.init (some flatArena)) 0).1.events EventType.lostSight 0 = 0 := by
  have hv : (tickStep rhoCenter neutralAction neutralAction
      (GState.init (some flatArena)) 0).1.visible0 = true := by
    norm_num [tickStep, tickPre, tickPost, GState.init, createBot, applyBotAction,
      applyMovement, applyFacing, processAction, upkeep, GState.getBot, GState.setBot,
      GState.pushEvent, GState.clearEvents, sampleSlope2, sampleTerrainHeight,
      clampToBounds, resolveObstacleCollision, resolveBotCollision, updateVisibility,
      GState.obstaclesOf, hasLineOfSight, isInFieldOfView, lineSegmentIntersectsCircle,
      sightEvents, updateProjectiles, processProjectileHits, trySpawnPickup, checkPickups,
      collectPickup, checkTraps, trapHitBot, koBot, checkKO, resolveOutcome, rhoCenter,
      flatArena, neutralAction, dist2, Vec2.sub, Vec2.norm2, Vec2.dot, distLtB, distGtB,
      distLeB, meleeFacingMiss, ratSqrt, ARENA_SIZE, ARENA_HALF, BOT_RADIUS, BOT_SPEED,
      PICKUP_INTERVAL, MAX_PICKUPS, PICKUP_RADIUS, TRAP_RADIUS, TRAP_LIFETIME, MAX_TICKS,
      HALF_FOV_COS, MOMENTUM_DECAY, TERRAIN_SLOPE_MAX, ENERGY_REGEN, OOC_REGEN_DELAY,
      BOT_HP, OOC_REGEN_RATE, BOT_ENERGY, ENERGY_PICKUP_AMOUNT, HEALTH_PICKUP_AMOUNT,
      activeTrapCount, min_def, max_def]
  have h := sight_transitions_per_tick rhoCenter neutralAction neutralAction
    (GState.init (some flatArena)) 0
  refine ⟨hv, h.2.2.2.2.1 hv, ?_⟩
  rw [h.1, hv]
  simp [GState.init]

/-! Claim C5 infrastructure: the hp and energy bounds as an inductive
invariant over the tick pipeline. -/

/-- Invariant preservation along a left fold, with membership. -/
theorem foldl_inv_mem {α β : Type _} {P : β → Prop} (f : β → α → β) (l : List α) (b : β)
    (hb : P b) (hf : ∀ b a, a ∈ l → P b → P (f b a)) : P (l.foldl f b) := by
  induction l generalizing b with
  | nil => exact hb
  | cons x xs ih =>
      exact ih (f b x) (hf b x (List.mem_cons_self x xs) hb)
        (fun b a ha hP => hf b a (List.mem_cons_of_mem x ha) hP)

theorem roundJs_nonneg (q : ℚ) (h : 0 ≤ q) : 0 ≤ roundJs q := by
  unfold roundJs
  have : (0 : ℤ) ≤ ⌊q + 1 / 2⌋ := Int.le_floor.mpr (by push_cast; linarith)
  exact_mod_cast this

theorem botMid_getBot {st : GState} (h : StateMid st) (i : ℕ) : BotMid (st.getBot i) := by
  unfold GState.getBot
  split
  · exact h.1
  · exact h.2.1

theorem stateMid_setBot {st : GState} {b : Bot} (h : StateMid st) (hb : BotMid b) (i : ℕ) :
    StateMid (st.setBot i b) := by
  unfold GState.setBot
  split
  · exact ⟨hb, h.2.1, h.2.2⟩
  · exact ⟨h.1, hb, h.2.2⟩

theorem stateMid_pushEvent {st : GState} (h : StateMid st) (e : GameEvent) :
    StateMid (st.pushEvent e) := h

theorem stateMid_addTrap {st : GState} (h : StateMid st) (o : ℕ) (p : Vec2) :
    StateMid (st.addTrap o p) := h

theorem stateMid_addProjectile {st : GState} (h : StateMid st) (o : ℕ) (p v : Vec2)
    {d : ℚ} (hd : 0 ≤ d) : StateMid (st.addProjectile o p v d) := by
  refine ⟨h.1, h.2.1, fun q hq => ?_⟩
  unfold GState.addProjectile at hq
  simp only [List.mem_append, List.mem_singleton] at hq
  rcases hq with hq | rfl
  · exact h.2.2 q hq
  · exact hd

theorem hpEnergy_applyMovement (b : Bot) (m : Vec2) (t : Option TerrainData) :
    (applyMovement b m t).hp = b.hp ∧ (applyMovement b m t).energy = b.energy :=
  ⟨rfl, rfl⟩

theorem hpEnergy_applyFacing (b : Bot) (aim : Vec2) :
    (applyFacing b aim).hp = b.hp ∧ (applyFacing b aim).energy = b.energy := by
  unfold applyFacing
  dsimp only
  split <;> exact ⟨rfl, rfl⟩

theorem hpEnergy_clampToBounds (b : Bot) :
    (clampToBounds b).hp = b.hp ∧ (clampToBounds b).energy = b.energy :=
  ⟨rfl, rfl⟩

theorem hpEnergy_resolveObstacleCollision (b : Bot) (dynObs : Option (List Obstacle)) :
    (resolveObstacleCollision b dynObs).hp = b.hp ∧
    (resolveObstacleCollision b dynObs).energy = b.energy := by
  unfold resolveObstacleCollision
  dsimp only
  refine foldl_inv (P := fun (bot : Bot) => bot.hp = b.hp ∧ bot.energy = b.energy)
    _ _ _ ⟨rfl, rfl⟩ ?_
  intro bot o hP
  dsimp only
  split
  · exact hP
  · exact hP

theorem hpEnergy_resolveBotCollision (a b : Bot) :
    ((resolveBotCollision a b).1.hp = a.hp ∧ (resolveBotCollision a b).1.energy = a.energy) ∧
    ((resolveBotCollision a b).2.hp = b.hp ∧ (resolveBotCollision a b).2.energy = b.energy) := by
  unfold resolveBotCollision
  dsimp only
  split
  · exact ⟨⟨rfl, rfl⟩, ⟨rfl, rfl⟩⟩
  · exact ⟨⟨rfl, rfl⟩, ⟨rfl, rfl⟩⟩

theorem botMid_of_eq {a b : Bot} (h : BotMid a) (hhp : b.hp = a.hp)
    (hen : b.energy = a.energy) : BotMid b := by
  unfold BotMid at h ⊢
  rw [hhp, hen]
  exact h

theorem stateMid_upkeep (i : ℕ) (st : GState) (h : StateMid st) :
    StateMid (upkeep i st) := by
  obtain ⟨hhp, hen0, hen1⟩ := botMid_getBot h i
  unfold upkeep
  dsimp only
  have hmin0 : 0 ≤ min 100 ((st.getBot i).energy + ENERGY_REGEN) :=
    le_min (by norm_num) (by unfold ENERGY_REGEN at *; linarith)
  have hmin1 : min 100 ((st.getBot i).energy + ENERGY_REGEN) ≤ BOT_ENERGY := by
    unfold BOT_ENERGY; exact min_le_left _ _
  by_cases hbn : (st.getBot i).status.burning > 0
  · simp only [hbn, if_true]
    refine stateMid_setBot (stateMid_pushEvent (stateMid_setBot h ?_ i) _) ?_ i
    · refine ⟨?_, hmin0, hmin1⟩
      have : (0 : ℚ) ≤ BURN_DAMAGE := by unfold BURN_DAMAGE; norm_num
      dsimp only
      linarith
    · dsimp only
      split
      · refine ⟨?_, hmin0, hmin1⟩
        exact min_le_left _ _
      · refine ⟨?_, hmin0, hmin1⟩
        have : (0 : ℚ) ≤ BURN_DAMAGE := by unfold BURN_DAMAGE; norm_num
        dsimp only
        linarith
  · simp only [hbn, if_false]
    refine stateMid_setBot (stateMid_setBot h ?_ i) ?_ i
    · exact ⟨hhp, hmin0, hmin1⟩
    · dsimp only
      split
      · refine ⟨?_, hmin0, hmin1⟩
        exact min_le_left _ _
      · exact ⟨hhp, hmin0, hmin1⟩

theorem stateMid_processMelee (i : ℕ) (st : GState) (h : StateMid st) :
    StateMid (processMelee i st) := by
  obtain ⟨hhp, hen0, hen1⟩ := botMid_getBot h i
  obtain ⟨ehp, een0, een1⟩ := botMid_getBot h (1 - i)
  unfold processMelee
  dsimp only
  split
  · exact h
  · rename_i hgate
    have hcost : MELEE_ENERGY ≤ (st.getBot i).energy :=
      le_of_not_lt fun hc => hgate (Or.inr hc)
    have hb1 : BotMid { st.getBot i with
        energy := (st.getBot i).energy - MELEE_ENERGY,
        cooldowns := { (st.getBot i).cooldowns with melee := MELEE_COOLDOWN },
        actionsUsed := (st.getBot i).actionsUsed.bump .melee,
        status := { (st.getBot i).status with attackCommit := MELEE_COMMIT_TICKS },
        momentum := 0 } := by
      refine ⟨hhp, ?_, ?_⟩ <;> dsimp only <;>
        simp only [MELEE_ENERGY, BOT_ENERGY] at * <;> linarith
    split
    · exact stateMid_pushEvent (stateMid_setBot h hb1 i) _
    · split
      · exact stateMid_pushEvent (stateMid_setBot h hb1 i) _
      · have hdmg : (0 : ℚ) ≤ (if (st.getBot (1 - i)).isDefending = true then
            roundJs (MELEE_DAMAGE * DEFEND_REDUCTION) else MELEE_DAMAGE) := by
          split
          · exact roundJs_nonneg _ (by unfold MELEE_DAMAGE DEFEND_REDUCTION; norm_num)
          · unfold MELEE_DAMAGE; norm_num
        refine stateMid_pushEvent (stateMid_setBot (stateMid_setBot h ?_ i) ?_ (1 - i)) _
        · refine ⟨hhp, ?_, ?_⟩ <;> dsimp only <;>
            simp only [MELEE_ENERGY, BOT_ENERGY] at * <;> linarith
        · refine ⟨?_, een0, een1⟩
          dsimp only
          simp only [BOT_HP] at *
          linarith

theorem stateMid_processRanged (i : ℕ) (st : GState) (h : StateMid st) :
    StateMid (processRanged i st) := by
  obtain ⟨hhp, hen0, hen1⟩ := botMid_getBot h i
  unfold processRanged
  dsimp only
  split
  · exact h
  · rename_i hgate
    have hcost : RANGED_ENERGY ≤ (st.getBot i).energy :=
      le_of_not_lt fun hc => hgate (Or.inr hc)
    refine stateMid_pushEvent (stateMid_addProjectile (stateMid_setBot h ?_ i) _ _ _
      (by unfold RANGED_DAMAGE; norm_num)) _
    refine ⟨hhp, ?_, ?_⟩ <;> dsimp only <;>
      simp only [RANGED_ENERGY, BOT_ENERGY] at * <;> linarith

theorem stateMid_processSpecial (i : ℕ) (st : GState) (h : StateMid st) :
    StateMid (processSpecial i st) := by
  obtain ⟨hhp, hen0, hen1⟩ := botMid_getBot h i
  obtain ⟨ehp, een0, een1⟩ := botMid_getBot h (1 - i)
  unfold processSpecial
  dsimp only
  split
  · exact h
  · rename_i hgate
    have hcost : SPECIAL_ENERGY ≤ (st.getBot i).energy :=
      le_of_not_lt fun hc => hgate (Or.inr hc)
    have hb1 : BotMid { st.getBot i with
        energy := (st.getBot i).energy - SPECIAL_ENERGY,
        cooldowns := { (st.getBot i).cooldowns with special := SPECIAL_COOLDOWN },
        actionsUsed := (st.getBot i).actionsUsed.bump .special,
        status := { (st.getBot i).status with attackCommit := SPECIAL_COMMIT_TICKS },
        momentum := 0 } := by
      refine ⟨hhp, ?_, ?_⟩ <;> dsimp only <;>
        simp only [SPECIAL_ENERGY, BOT_ENERGY] at * <;> linarith
    split
    · refine stateMid_pushEvent (stateMid_setBot (stateMid_setBot
        (stateMid_pushEvent (stateMid_setBot h hb1 i) _) ?_ i) ?_ (1 - i)) _
      · refine ⟨hhp, ?_, ?_⟩ <;> dsimp only <;>
          simp only [SPECIAL_ENERGY, BOT_ENERGY] at * <;> linarith
      · have hdmg : (0 : ℚ) ≤ (if (st.getBot (1 - i)).isDefending = true then
            roundJs (SPECIAL_DAMAGE * DEFEND_REDUCTION) else SPECIAL_DAMAGE) := by
          split
          · exact roundJs_nonneg _ (by unfold SPECIAL_DAMAGE DEFEND_REDUCTION; norm_num)
          · unfold SPECIAL_DAMAGE; norm_num
        refine ⟨?_, een0, een1⟩
        dsimp only
        simp only [BOT_HP] at *
        linarith
    · exact stateMid_pushEvent (stateMid_setBot h hb1 i) _

theorem stateMid_processDefend (i : ℕ) (st : GState) (h : StateMid st) :
    StateMid (processDefend i st) := by
  obtain ⟨hhp, hen0, hen1⟩ := botMid_getBot h i
  unfold processDefend
  dsimp only
  split
  · exact h
  · rename_i hgate
    have hcost : DEFEND_ENERGY_PER_TICK ≤ (st.getBot i).energy := le_of_not_lt hgate
    refine stateMid_setBot h ?_ i
    refine ⟨hhp, ?_, ?_⟩ <;> dsimp only <;>
      simp only [DEFEND_ENERGY_PER_TICK, BOT_ENERGY] at * <;> linarith

theorem stateMid_processDash (i : ℕ) (st : GState) (h : StateMid st) :
    StateMid (processDash i st) := by
  obtain ⟨hhp, hen0, hen1⟩ := botMid_getBot h i
  unfold processDash
  dsimp only
  split
  · exact h
  · rename_i hgate
    have hcost : DASH_ENERGY ≤ (st.getBot i).energy :=
      le_of_not_lt fun hc => hgate (Or.inr hc)
    refine stateMid_pushEvent (stateMid_setBot h ?_ i) _
    refine ⟨hhp, ?_, ?_⟩ <;> dsimp only <;>
      simp only [DASH_ENERGY, BOT_ENERGY] at * <;> linarith

theorem stateMid_processHeal (i : ℕ) (st : GState) (h : StateMid st) :
    StateMid (processHeal i st) := by
  obtain ⟨hhp, hen0, hen1⟩ := botMid_getBot h i
  unfold processHeal
  dsimp only
  split
  · exact h
  · rename_i hgate
    have hcost : HEAL_ENERGY ≤ (st.getBot i).energy :=
      le_of_not_lt fun hc => hgate (Or.inr hc)
    refine stateMid_pushEvent (stateMid_setBot h ?_ i) _
    refine ⟨min_le_left _ _, ?_, ?_⟩ <;> dsimp only <;>
      simp only [HEAL_ENERGY, BOT_ENERGY] at * <;> linarith

theorem stateMid_processTrap (i : ℕ) (st : GState) (h : StateMid st) :
    StateMid (processTrap i st) := by
  obtain ⟨hhp, hen0, hen1⟩ := botMid_getBot h i
  unfold processTrap
  dsimp only
  split
  · exact h
  · rename_i hgate
    split
    · exact h
    · have hcost : TRAP_ENERGY ≤ (st.getBot i).energy :=
        le_of_not_lt fun hc => hgate (Or.inr hc)
      refine stateMid_pushEvent (stateMid_addTrap (stateMid_setBot h ?_ i) _ _) _
      refine ⟨hhp, ?_, ?_⟩ <;> dsimp only <;>
        simp only [TRAP_ENERGY, BOT_ENERGY] at * <;> linarith

theorem stateMid_processAction (i : ℕ) (act : Option ActionKind) (st : GState)
    (h : StateMid st) : StateMid (processAction i act st) := by
  unfold processAction
  cases act with
  | none => dsimp only; exact stateMid_upkeep i st h
  | some k =>
      cases k with
      | melee => dsimp only; exact stateMid_processMelee i _ (stateMid_upkeep i st h)
      | ranged => dsimp only; exact stateMid_processRanged i _ (stateMid_upkeep i st h)
      | special => dsimp only; exact stateMid_processSpecial i _ (stateMid_upkeep i st h)
      | defend => dsimp only; exact stateMid_processDefend i _ (stateMid_upkeep i st h)
      | dash => dsimp only; exact stateMid_processDash i _ (stateMid_upkeep i st h)
      | heal => dsimp only; exact stateMid_processHeal i _ (stateMid_upkeep i st h)
      | trap => dsimp only; exact stateMid_processTrap i _ (stateMid_upkeep i st h)

theorem stateMid_applyBotAction (i : ℕ) (a : BotAction) (st : GState) (h : StateMid st) :
    StateMid (applyBotAction i a st) := by
  unfold applyBotAction
  dsimp only
  refine stateMid_processAction i _ _ ?_
  have h1 : StateMid (st.setBot i (applyMovement (st.getBot i) a.move
      (st.arenaConfig.map fun c => c.terrain))) :=
    stateMid_setBot h (botMid_of_eq (botMid_getBot h i)
      (hpEnergy_applyMovement _ _ _).1 (hpEnergy_applyMovement _ _ _).2) i
  refine stateMid_setBot h1 ?_ i
  rw [getBot_setBot_same]
  exact botMid_of_eq (botMid_of_eq (botMid_getBot h i)
      (hpEnergy_applyMovement _ _ _).1 (hpEnergy_applyMovement _ _ _).2)
    (hpEnergy_applyFacing _ _).1 (hpEnergy_applyFacing _ _).2

theorem stateMid_obstaclePass (X : GState) (hX : StateMid X) (i : ℕ)
    (dynObs : Option (List Obstacle)) :
    StateMid (X.setBot i (clampToBounds (resolveObstacleCollision (X.getBot i) dynObs))) :=
  stateMid_setBot hX (botMid_of_eq (botMid_getBot hX i)
    ((hpEnergy_clampToBounds _).1.trans (hpEnergy_resolveObstacleCollision _ _).1)
    ((hpEnergy_clampToBounds _).2.trans (hpEnergy_resolveObstacleCollision _ _).2)) i

theorem stateMid_botCollisionPass (W : GState) (hW : StateMid W) :
    StateMid ((W.setBot 0 (resolveBotCollision (W.getBot 0) (W.getBot 1)).1).setBot 1
      (resolveBotCollision (W.getBot 0) (W.getBot 1)).2) :=
  stateMid_setBot
    (stateMid_setBot hW (botMid_of_eq (botMid_getBot hW 0)
      (hpEnergy_resolveBotCollision _ _).1.1 (hpEnergy_resolveBotCollision _ _).1.2) 0)
    (botMid_of_eq (botMid_getBot hW 1)
      (hpEnergy_resolveBotCollision _ _).2.1 (hpEnergy_resolveBotCollision _ _).2.2) 1

theorem stateMid_tickPre (a0 a1 : BotAction) (st : GState) (h : StateMid st) :
    StateMid (tickPre a0 a1 st) := by
  unfold tickPre
  dsimp only
  have h1 : StateMid { st.clearEvents with tick := st.clearEvents.tick + 1 } := h
  have h2 := stateMid_applyBotAction 1 a1 _ (stateMid_applyBotAction 0 a0 _ h1)
  exact stateMid_botCollisionPass _
    (stateMid_obstaclePass _ (stateMid_obstaclePass _ h2 0 _) 1 _)

theorem stateMid_updateVisibility (st : GState) (h : StateMid st) :
    StateMid (updateVisibility st) := h

theorem stateMid_sightEvents (p0 p1 : Bool) (st : GState) (h : StateMid st) :
    StateMid (sightEvents p0 p1 st) := by
  unfold sightEvents
  dsimp only
  repeat' split
  all_goals exact h

theorem stateMid_setTraps (st : GState) (ts : List Trap) (h : StateMid st) :
    StateMid { st with traps := ts } := h

theorem projOK_updateProjectiles (ps : List Projectile) (dynObs : Option (List Obstacle))
    (h : ∀ p ∈ ps, 0 ≤ p.damage) : ∀ q ∈ updateProjectiles ps dynObs, 0 ≤ q.damage := by
  intro q hq
  unfold updateProjectiles at hq
  try dsimp only at hq
  rw [List.mem_filterMap] at hq
  obtain ⟨p, hp, hfm⟩ := hq
  try dsimp only at hfm
  split at hfm
  · exact absurd hfm (by simp)
  · split at hfm
    · exact absurd hfm (by simp)
    · split at hfm
      · injection hfm with h'
        rw [← h']
        exact h p hp
      · exact absurd hfm (by simp)

theorem stateMid_applyProjectileHit (st : GState) (proj : Projectile) (ti : ℕ)
    (h : StateMid st) (hd : 0 ≤ proj.damage) : StateMid (applyProjectileHit st proj ti) := by
  obtain ⟨thp, ten0, ten1⟩ := botMid_getBot h ti
  have hdmg : (0 : ℚ) ≤ (if (st.getBot ti).isDefending = true then
      roundJs (proj.damage * DEFEND_REDUCTION) else proj.damage) := by
    split
    · exact roundJs_nonneg _ (mul_nonneg hd (by unfold DEFEND_REDUCTION; norm_num))
    · exact hd
  unfold applyProjectileHit
  dsimp only
  split
  · refine stateMid_pushEvent (stateMid_setBot (stateMid_setBot h ?_ ti) ?_ _) _
    · refine ⟨?_, ten0, ten1⟩
      dsimp only
      simp only [BOT_HP] at *
      linarith
    · refine botMid_of_eq (botMid_getBot (stateMid_setBot h ?_ ti) _) rfl rfl
      refine ⟨?_, ten0, ten1⟩
      dsimp only
      simp only [BOT_HP] at *
      linarith
  · refine stateMid_pushEvent (stateMid_setBot h ?_ ti) _
    refine ⟨?_, ten0, ten1⟩
    dsimp only
    simp only [BOT_HP] at *
    linarith

theorem stateMid_processProjectileHits (st : GState) (h : StateMid st) :
    StateMid (processProjectileHits st) := by
  unfold processProjectileHits
  dsimp only
  have hfold : (fun (acc : List Projectile × GState) =>
      StateMid acc.2 ∧ ∀ q ∈ acc.1, 0 ≤ q.damage)
      (st.projectiles.foldl
        (fun (acc : List Projectile × GState) proj =>
          match projHitTarget acc.2 proj with
          | some ti => (acc.1, applyProjectileHit acc.2 proj ti)
          | none => (acc.1 ++ [proj], acc.2))
        ([], st)) := by
    refine foldl_inv_mem (P := fun (acc : List Projectile × GState) =>
      StateMid acc.2 ∧ ∀ q ∈ acc.1, 0 ≤ q.damage) _ _ _ (by exact ⟨h, by simp⟩) ?_
    intro b a ha hP
    dsimp only
    split
    · exact ⟨stateMid_applyProjectileHit _ _ _ hP.1 (h.2.2 a ha), hP.2⟩
    · refine ⟨hP.1, ?_⟩
      intro q hq
      rw [List.mem_append, List.mem_singleton] at hq
      rcases hq with hq | rfl
      · exact hP.2 q hq
      · exact h.2.2 q ha
  dsimp only at hfold
  exact ⟨hfold.1.1, hfold.1.2.1, hfold.2⟩

theorem stateMid_trySpawnPickup (ρ : ℕ → ℚ) (k : ℕ) (st : GState) (h : StateMid st) :
    StateMid (trySpawnPickup ρ k st).1 := by
  unfold trySpawnPickup
  dsimp only
  split
  · exact h
  · split
    · exact h
    · split
      · exact h
      · exact h

theorem stateMid_collectPickup (acc : GState × Pickup) (i : ℕ) (h : StateMid acc.1) :
    StateMid (collectPickup acc i).1 := by
  obtain ⟨bhp, ben0, ben1⟩ := botMid_getBot h i
  unfold collectPickup
  dsimp only
  split
  · refine stateMid_pushEvent (stateMid_setBot h ?_ i) _
    split
    · refine ⟨?_, ben0, ben1⟩
      dsimp only
      exact min_le_left _ _
    · refine ⟨bhp, ?_, ?_⟩ <;> dsimp only
      · refine le_min (by unfold BOT_ENERGY; norm_num) ?_
        have : (0 : ℚ) ≤ ENERGY_PICKUP_AMOUNT := by unfold ENERGY_PICKUP_AMOUNT; norm_num
        linarith
      · exact min_le_left _ _
  · exact h

theorem stateMid_checkPickups (st : GState) (h : StateMid st) :
    StateMid (checkPickups st) := by
  unfold checkPickups
  dsimp only
  have hfold : (fun (acc : GState × List Pickup) => StateMid acc.1)
      (st.pickups.foldl
        (fun (acc : GState × List Pickup) p =>
          if !p.active then (acc.1, acc.2 ++ [p])
          else
            let out := collectPickup (collectPickup (acc.1, p) 0) 1
            (out.1, acc.2 ++ [out.2]))
        (st, [])) := by
    refine foldl_inv (P := fun (acc : GState × List Pickup) => StateMid acc.1) _ _ _ h ?_
    intro b a hP
    dsimp only
    split
    · exact hP
    · exact stateMid_collectPickup _ 1 (stateMid_collectPickup (b.1, a) 0 hP)
  exact hfold

theorem stateMid_trapHitBot (acc : GState × Trap) (i : ℕ) (h : StateMid acc.1) :
    StateMid (trapHitBot acc i).1 := by
  obtain ⟨bhp, ben0, ben1⟩ := botMid_getBot h i
  have hdmg : (0 : ℚ) ≤ TRAP_DAMAGE := by unfold TRAP_DAMAGE; norm_num
  unfold trapHitBot
  dsimp only
  split
  · exact h
  · split
    · split
      · refine stateMid_pushEvent (stateMid_setBot (stateMid_setBot h ?_ i) ?_ _) _
        · refine ⟨?_, ben0, ben1⟩
          dsimp only
          simp only [BOT_HP] at *
          linarith
        · refine botMid_of_eq (botMid_getBot (stateMid_setBot h ?_ i) _) rfl rfl
          refine ⟨?_, ben0, ben1⟩
          dsimp only
          simp only [BOT_HP] at *
          linarith
      · refine stateMid_pushEvent (stateMid_setBot h ?_ i) _
        refine ⟨?_, ben0, ben1⟩
        dsimp only
        simp only [BOT_HP] at *
        linarith
    · exact h

theorem stateMid_checkTraps (st : GState) (h : StateMid st) :
    StateMid (checkTraps st) := by
  unfold checkTraps
  dsimp only
  have hfold : (fun (acc : GState × List Trap) => StateMid acc.1)
      (st.traps.foldl
        (fun (acc : GState × List Trap) t =>
          if !t.active then (acc.1, acc.2 ++ [t])
          else
            let t := { t with lifetime := t.lifetime + 1 }
            let out := trapHitBot (trapHitBot (acc.1, t) 0) 1
            (out.1, acc.2 ++ [out.2]))
        (st, [])) := by
    refine foldl_inv (P := fun (acc : GState × List Trap) => StateMid acc.1) _ _ _ h ?_
    intro b a hP
    dsimp only
    split
    · exact hP
    · exact stateMid_trapHitBot _ 1 (stateMid_trapHitBot (b.1, _) 0 hP)
  exact hfold

theorem stateMid_setOutcome (X : GState) (g : Bool) (w : Option ℕ) (h : StateMid X) :
    StateMid { X with gameOver := g, winner := w } := h

theorem stateMid_koBot (st : GState) (i : ℕ) (h : StateMid st) :
    StateMid (koBot st i) := by
  obtain ⟨bhp, ben0, ben1⟩ := botMid_getBot h i
  unfold koBot
  dsimp only
  split
  · refine stateMid_pushEvent (stateMid_setOutcome _ _ _ (stateMid_setBot h ?_ i)) _
    exact ⟨by unfold BOT_HP; norm_num, ben0, ben1⟩
  · exact h

theorem stateMid_checkKO (st : GState) (h : StateMid st) : StateMid (checkKO st) := by
  unfold checkKO
  exact stateMid_koBot _ 1 (stateMid_koBot st 0 h)

theorem stateMid_resolveOutcome (st : GState) (h : StateMid st) :
    StateMid (resolveOutcome st) := by
  unfold resolveOutcome
  dsimp only
  split
  · exact stateMid_checkKO st h
  · exact stateMid_checkKO st h

theorem koBot0_bot0_hp (st : GState) :
    (koBot st 0).bot0.hp = if st.bot0.hp ≤ 0 then 0 else st.bot0.hp := by
  unfold koBot
  by_cases h : st.bot0.hp ≤ 0 <;>
    simp [GState.getBot, GState.setBot, GState.pushEvent, h]

theorem koBot0_bot1_hp (st : GState) : (koBot st 0).bot1.hp = st.bot1.hp := by
  unfold koBot
  by_cases h : st.bot0.hp ≤ 0 <;>
    simp [GState.getBot, GState.setBot, GState.pushEvent, h]

theorem koBot1_bot1_hp (st : GState) :
    (koBot st 1).bot1.hp = if st.bot1.hp ≤ 0 then 0 else st.bot1.hp := by
  unfold koBot
  by_cases h : st.bot1.hp ≤ 0 <;>
    simp [GState.getBot, GState.setBot, GState.pushEvent, h]

theorem koBot1_bot0_hp (st : GState) : (koBot st 1).bot0.hp = st.bot0.hp := by
  unfold koBot
  by_cases h : st.bot1.hp ≤ 0 <;>
    simp [GState.getBot, GState.setBot, GState.pushEvent, h]

/-- The knockout sweep pins every nonpositive hp to zero, so hp is
nonnegative afterwards. -/
theorem checkKO_hp_nonneg (st : GState) :
    0 ≤ (checkKO st).bot0.hp ∧ 0 ≤ (checkKO st).bot1.hp := by
  unfold checkKO
  constructor
  · rw [koBot1_bot0_hp, koBot0_bot0_hp]
    split
    · exact le_refl 0
    · rename_i h
      exact le_of_lt (not_le.mp h)
  · rw [koBot1_bot1_hp, koBot0_bot1_hp]
    split
    · exact le_refl 0
    · rename_i h
      exact le_of_lt (not_le.mp h)

theorem resolveOutcome_bot0 (st : GState) :
    (resolveOutcome st).bot0 = (checkKO st).bot0 := by
  unfold resolveOutcome
  dsimp only
  split <;> rfl

theorem resolveOutcome_bot1 (st : GState) :
    (resolveOutcome st).bot1 = (checkKO st).bot1 := by
  unfold resolveOutcome
  dsimp only
  split <;> rfl

theorem resolveOutcome_hp_nonneg (st : GState) :
    0 ≤ (resolveOutcome st).bot0.hp ∧ 0 ≤ (resolveOutcome st).bot1.hp := by
  rw [resolveOutcome_bot0, resolveOutcome_bot1]
  exact checkKO_hp_nonneg st

theorem bounds_resolveOutcome (X : GState) (hX : StateMid X) :
    BotBounds (resolveOutcome X) ∧ ProjOK (resolveOutcome X) := by
  have hm := stateMid_resolveOutcome X hX
  have hn := resolveOutcome_hp_nonneg X
  exact ⟨⟨⟨hn.1, hm.1.1, hm.1.2.1, hm.1.2.2⟩,
    ⟨hn.2, hm.2.1.1, hm.2.1.2.1, hm.2.1.2.2⟩⟩, hm.2.2⟩

theorem stateMid_setProjectilesOK (s : GState) (dynObs : Option (List Obstacle))
    (h : StateMid s) :
    StateMid { s with projectiles := updateProjectiles s.projectiles dynObs } :=
  ⟨h.1, h.2.1, projOK_updateProjectiles _ _ h.2.2⟩

theorem tickPost_bounds (ρ : ℕ → ℚ) (k : ℕ) (s : GState) (h : StateMid s) :
    BotBounds (tickPost ρ k s).1 ∧ ProjOK (tickPost ρ k s).1 := by
  unfold tickPost
  dsimp only
  exact bounds_resolveOutcome _
    (stateMid_setTraps _ _
      (stateMid_checkTraps _
        (stateMid_checkPickups _
          (stateMid_trySpawnPickup ρ k _
            (stateMid_processProjectileHits _
              (stateMid_setProjectilesOK s _ h))))))

theorem tickStep_preserves (ρ : ℕ → ℚ) (a0 a1 : BotAction) (st : GState) (k : ℕ)
    (h : BotBounds st ∧ ProjOK st) :
    BotBounds (tickStep ρ a0 a1 st k).1 ∧ ProjOK (tickStep ρ a0 a1 st k).1 := by
  have hmid : StateMid st :=
    ⟨⟨h.1.1.2.1, h.1.1.2.2.1, h.1.1.2.2.2⟩,
     ⟨h.1.2.2.1, h.1.2.2.2.1, h.1.2.2.2.2⟩, h.2⟩
  unfold tickStep
  dsimp only
  exact tickPost_bounds ρ k _
    (stateMid_sightEvents _ _ _
      (stateMid_updateVisibility _ (stateMid_tickPre a0 a1 st hmid)))

theorem init_bounds (cfg : Option ArenaConfig) :
    BotBounds (GState.init cfg) ∧ ProjOK (GState.init cfg) := by
  refine ⟨?_, ?_⟩
  · unfold BotBounds GState.init createBot BOT_HP BOT_ENERGY
    cases cfg <;> norm_num
  · intro p hp
    exact absurd hp (by cases cfg <;> simp [GState.init])

theorem runMatch_bounds (cfg : Option ArenaConfig) (dec : ℕ → BotAction × BotAction)
    (ρ : ℕ → ℚ) (n : ℕ) :
    BotBounds (runMatch cfg dec ρ n).1 ∧ ProjOK (runMatch cfg dec ρ n).1 := by
  induction n with
  | zero => exact init_bounds cfg
  | succ n ih =>
      simp only [runMatch]
      split
      · exact ih
      · exact tickStep_preserves ρ _ _ _ _ ih

/-- C5: at the end of every executed tick, at the point the state is
published, both bots hp values lie between 0 and the hp cap and both
energy values lie between 0 and the energy cap, for every arena
configuration, every decision sequence and every random draw stream. -/
theorem hp_energy_in_bounds (cfg : Option ArenaConfig)
    (dec : ℕ → BotAction × BotAction) (ρ : ℕ → ℚ) (n : ℕ) :
    BotBounds (runMatch cfg dec ρ n).1 :=
  (runMatch_bounds cfg dec ρ n).1

end Botwars
